import Mathlib

/-!
# Shallow embedding of FanzineIssueSpecPackage.py

This file embeds, in Lean 4, the data model and the operations of the
fanzine issue-designation parser (`src/FanzineIssueSpecPackage.py`):
the lexicon tables, the year normalizer, the day bounder, the date and
serial matchers, the issue-spec combinator, the list parser, and the
comparison/format functions.  Machine strings are Lean `String`s, Python
ints are `Int`, the numeric issue fields (which Python sometimes holds as
floats) are `ℚ`, and Python `None` is `Option.none`.  Code that can raise
a Python exception is embedded in `Except PyErr`.

The Python regular expressions are embedded through a small backtracking
matcher (`reMatch`) over an explicit pattern AST.  The matcher implements
the exact fragment the source uses: single-character atoms with greedy or
lazy quantifiers, capturing groups containing an ordered list of
alternatives, and an optional end anchor; alternatives and quantifier
lengths are tried in the same preference order as CPython `re.match`.
-/

namespace FISP

/-- Python exceptions that the embedded code can raise. -/
inductive PyErr where
  /-- IndexError, e.g. `tokens[0][0]` on an empty string. -/
  | indexError : PyErr
  /-- TypeError, e.g. comparing `int` with `None` or `str`. -/
  | typeError : PyErr
  /-- ValueError, e.g. `int(s)` on a non-numeric string. -/
  | valueError : PyErr
  /-- AttributeError, e.g. a method call on `None`. -/
  | attributeError : PyErr
  /-- ZeroDivisionError. -/
  | zeroDivisionError : PyErr
  deriving Repr, DecidableEq

/-! ## Python string and int primitives

The embeddings below work on `List Char` through their own structural
recursions (rather than through the byte-position loops of the core
`String` functions) so that every definition evaluates inside the
kernel.  The character classes are the ASCII ones; the corpus the
source parses is ASCII. -/

/-- ASCII decimal digit (`str.isdigit` / regex `\d` over this corpus). -/
def pyIsDigit (c : Char) : Bool := '0' ≤ c && c ≤ '9'

/-- ASCII letter. -/
def pyIsAlpha (c : Char) : Bool := ('a' ≤ c && c ≤ 'z') || ('A' ≤ c && c ≤ 'Z')

/-- The whitespace set of Python `str.strip`, `str.split` and regex
`\s`: space, tab, newline, carriage return, vertical tab, form feed. -/
def pyIsWS (c : Char) : Bool :=
  c = ' ' || c = '\t' || c = '\n' || c = '\r' || c = '\x0b' || c = '\x0c'

/-- Python `str.lower` for ASCII. -/
def pyLowerChar (c : Char) : Char :=
  if 'A' ≤ c && c ≤ 'Z' then Char.ofNat (c.toNat + 32) else c

/-- Python `s.lower()`. -/
def pyToLower (s : String) : String := String.mk (s.data.map pyLowerChar)

/-- Python `s.strip()` on a character list. -/
def pyTrimList (cs : List Char) : List Char :=
  ((cs.dropWhile pyIsWS).reverse.dropWhile pyIsWS).reverse

/-- Python `s.strip()`. -/
def pyTrim (s : String) : String := String.mk (pyTrimList s.data)

/-- One pass of Python `s.replace(pat, rep)` over a character list:
left to right, non-overlapping, resuming after each replacement.  The
fuel argument (one unit per character examined) makes the recursion
structural; `pyReplace` supplies enough of it. -/
def pyReplaceL (pat rep : List Char) : Nat → List Char → List Char
  | 0, cs => cs
  | _ + 1, [] => []
  | fuel + 1, c :: rest =>
      if pat.isPrefixOf (c :: rest) && !pat.isEmpty then
        rep ++ pyReplaceL pat rep fuel ((c :: rest).drop pat.length)
      else c :: pyReplaceL pat rep fuel rest

/-- Python `s.replace(pat, rep)` (nonempty `pat`, as at every call
site). -/
def pyReplace (s pat rep : String) : String :=
  String.mk (pyReplaceL pat.data rep.data s.data.length s.data)

/-- Python `s.split(sep)` over character lists (empty pieces kept, as
Python keeps them), with structural fuel as in `pyReplaceL`. -/
def pySplitL (sep : List Char) : Nat → List Char → List Char → List (List Char)
  | 0, acc, cs => [acc.reverse ++ cs]
  | _ + 1, acc, [] => [acc.reverse]
  | fuel + 1, acc, c :: rest =>
      if sep.isPrefixOf (c :: rest) && !sep.isEmpty then
        acc.reverse :: pySplitL sep fuel [] ((c :: rest).drop sep.length)
      else pySplitL sep fuel (c :: acc) rest

/-- Python `s.split(sep)` for a nonempty separator. -/
def pySplitOn (s sep : String) : List String :=
  (pySplitL sep.data s.data.length [] s.data).map String.mk

/-- Numeric value of a list of decimal digit characters. -/
def digitsVal (cs : List Char) : Nat :=
  cs.foldl (fun acc c => 10 * acc + (c.toNat - 48)) 0

/-- Python `int(s)` on a string: surrounding whitespace, an optional
sign, then at least one ASCII decimal digit; `none` when `int` would
raise `ValueError`.  (Unicode digits and underscore separators, which
CPython also accepts, do not occur in this corpus and are not modeled.) -/
def pyInt? (s : String) : Option Int :=
  let t := pyTrimList s.data
  let core : Int × List Char :=
    match t with
    | '+' :: rest => (1, rest)
    | '-' :: rest => (-1, rest)
    | l => (1, l)
  if core.2.isEmpty || !core.2.all pyIsDigit then none
  else some (core.1 * (digitsVal core.2 : Nat))

/-- The grouping pass of Python `str.split()` with no argument:
whitespace runs separate the pieces, empty pieces dropped. -/
def splitWSL : List Char → List Char → List (List Char)
  | acc, [] => if acc.isEmpty then [] else [acc.reverse]
  | acc, c :: rest =>
      if pyIsWS c then
        if acc.isEmpty then splitWSL [] rest
        else acc.reverse :: splitWSL [] rest
      else splitWSL (c :: acc) rest

/-- Python `s.split()` with no argument. -/
def splitWS (s : String) : List String := (splitWSL [] s.data).map String.mk

/-- Python `s.removesuffix(suf)`. -/
def pyRemoveSuffix (s suf : String) : String :=
  if suf.data.isEmpty then s
  else if suf.data.isSuffixOf s.data then
    String.mk (s.data.take (s.data.length - suf.data.length))
  else s

/-- Python `", ".join(parts)` and friends. -/
def pyJoin (sep : String) : List String → String
  | [] => ""
  | [p] => p
  | p :: rest => p ++ sep ++ pyJoin sep rest

/-- Python `sub in s` for a single-character `sub`. -/
def pyContainsChar (s : String) (c : Char) : Bool := s.data.any (fun x => x = c)

/-- Decimal digit character for a value below ten. -/
def digitChar (n : Nat) : Char := Char.ofNat (48 + n)

/-- Decimal rendering of a natural number with structural fuel (each
step divides by ten, so `n` units always suffice). -/
def natDecF : Nat → Nat → List Char
  | 0, n => [digitChar n]
  | fuel + 1, n =>
      if n < 10 then [digitChar n]
      else natDecF fuel (n / 10) ++ [digitChar (n % 10)]

/-- Decimal rendering of a natural number, most significant digit
first (the digits of Python `str(n)` for `n ≥ 0`). -/
def natDec (n : Nat) : List Char := natDecF n n

/-- Python `str(i)` for an int. -/
def intStr (i : Int) : String :=
  if i < 0 then "-" ++ String.mk (natDec i.natAbs) else String.mk (natDec i.natAbs)

/-- Zero-padded fixed-width decimal rendering (width `w`, value `n`
taken modulo `10 ^ w`), most significant digit first. -/
def padDec : Nat → Nat → List Char
  | 0, _ => []
  | w + 1, n => padDec w (n / 10) ++ [digitChar (n % 10)]

/-- Python `format(n, '02d')`: decimal rendering padded with zeros on
the left to width two (sign included in the width, as in Python). -/
def pyFormat02 (n : Int) : String :=
  let s := intStr n
  if s.length < 2 then "0" ++ s else s

/-- Lexicographic strict comparison of character lists by code point,
the order Python uses for `str < str`. -/
def lexLt : List Char → List Char → Bool
  | [], [] => false
  | [], _ :: _ => true
  | _ :: _, [] => false
  | a :: as, b :: bs => if a = b then lexLt as bs else decide (a < b)

/-- Python `s < t` on strings. -/
def strLt (s t : String) : Bool := lexLt s.data t.data

/-! ## The regular-expression fragment used by the source

Every pattern in the source quantifies only single-character atoms and
never nests capturing groups, so a pattern is a list of tokens, each
token either a quantified atom or a capturing group holding an ordered
list of alternatives, each alternative a list of quantified atoms. -/

/-- A single-character atom with its quantifier. -/
inductive RElem where
  /-- exactly one character satisfying the predicate -/
  | one : (Char → Bool) → RElem
  /-- greedy `?` -/
  | opt : (Char → Bool) → RElem
  /-- greedy `+` -/
  | many1 : (Char → Bool) → RElem
  /-- greedy `*` -/
  | many0 : (Char → Bool) → RElem
  /-- lazy `*?` -/
  | many0ng : (Char → Bool) → RElem
  /-- lazy `+?` -/
  | many1ng : (Char → Bool) → RElem

/-- A pattern token: a bare atom or a capturing group (ordered
alternatives, each a sequence of atoms). -/
inductive RTok where
  | e : RElem → RTok
  | grp : List (List RElem) → RTok

/-- Length of the longest prefix whose characters satisfy `p`. -/
def countSat (p : Char → Bool) : List Char → Nat
  | [] => 0
  | c :: cs => if p c then countSat p cs + 1 else 0

/-- All ways one quantified atom can consume a prefix of `s`, as
(consumed, rest) pairs in backtracking preference order (greedy
quantifiers longest first, lazy quantifiers shortest first). -/
def elemAlts (e : RElem) (s : List Char) : List (List Char × List Char) :=
  match e with
  | .one p =>
      match s with
      | [] => []
      | c :: r => if p c then [([c], r)] else []
  | .opt p =>
      match s with
      | [] => [([], [])]
      | c :: r => if p c then [([c], r), ([], c :: r)] else [([], c :: r)]
  | .many1 p =>
      let k := countSat p s
      (List.range k).map (fun i => (s.take (k - i), s.drop (k - i)))
  | .many0 p =>
      let k := countSat p s
      (List.range (k + 1)).map (fun i => (s.take (k - i), s.drop (k - i)))
  | .many0ng p =>
      let k := countSat p s
      (List.range (k + 1)).map (fun i => (s.take i, s.drop i))
  | .many1ng p =>
      let k := countSat p s
      (List.range k).map (fun i => (s.take (i + 1), s.drop (i + 1)))

/-- All ways a sequence of atoms can consume a prefix of `s`, in
preference order. -/
def seqAlts : List RElem → List Char → List (List Char × List Char)
  | [], s => [([], s)]
  | e :: es, s =>
      (elemAlts e s).flatMap
        (fun pr => (seqAlts es pr.2).map (fun pr2 => (pr.1 ++ pr2.1, pr2.2)))

/-- First success of `f` over a list, in order. -/
def firstSome : List α → (α → Option β) → Option β
  | [], _ => none
  | a :: as, f =>
      match f a with
      | some b => some b
      | none => firstSome as f

/-- Backtracking matcher: match the token list against `s` (anchored at
the start, as `re.match` is), requiring the whole input to be consumed
when `endAnchor` is true (a trailing `$`).  Returns the list of group
captures of the first match in preference order.  The structural fuel
counts pattern tokens: each recursive call consumes one token, so the
pattern length always suffices. -/
def toksMatch (endAnchor : Bool) : Nat → List RTok → List Char → List String → Option (List String)
  | _, [], s, caps => if endAnchor && !s.isEmpty then none else some caps.reverse
  | 0, _ :: _, _, _ => none
  | fuel + 1, .e el :: ts, s, caps =>
      firstSome (elemAlts el s) (fun pr => toksMatch endAnchor fuel ts pr.2 caps)
  | fuel + 1, .grp alts :: ts, s, caps =>
      firstSome alts (fun alt =>
        firstSome (seqAlts alt s) (fun pr =>
          toksMatch endAnchor fuel ts pr.2 (String.mk pr.1 :: caps)))

/-- `re.match(pattern, s)`, returning the group captures on success. -/
def reMatch (pat : List RTok) (endAnchor : Bool) (s : String) : Option (List String) :=
  toksMatch endAnchor pat.length pat s.data []

/-! ### Character classes and pattern notation used by the source -/

/-- `\d` (ASCII). -/
def pD (c : Char) : Bool := pyIsDigit c

/-- `\w` (ASCII letters, digits and underscore; the source contains
only ASCII input). -/
def pW (c : Char) : Bool := pyIsDigit c || pyIsAlpha c || c = '_'

/-- `\s` (whitespace). -/
def pS (c : Char) : Bool := pyIsWS c

/-- `.` (any character but newline). -/
def pDot (c : Char) : Bool := c != '\n'

/-- A literal character. -/
def pC (x : Char) (c : Char) : Bool := c = x

/-- The class `[\s\w\-',]`. -/
def pSWcls (c : Char) : Bool := pS c || pW c || c = '-' || c = Char.ofNat 39 || c = ','

/-- The class `[,\s]`. -/
def pCommaWS (c : Char) : Bool := c = ',' || pS c

/-- The class matching a dash or a slash. -/
def pDashSlash (c : Char) : Bool := c = '-' || c = '/'

/-- The class `[IVXLC]`. -/
def pRoman (c : Char) : Bool := c = 'I' || c = 'V' || c = 'X' || c = 'L' || c = 'C'

/-- The class `[a-z]`. -/
def pLower (c : Char) : Bool := 'a' ≤ c && c ≤ 'z'

/-- The class `[a-zA-Z]`. -/
def pAlpha (c : Char) : Bool := ('a' ≤ c && c ≤ 'z') || ('A' ≤ c && c ≤ 'Z')

/-- Token for one literal character. -/
def tL (x : Char) : RTok := .e (.one (pC x))

/-- Tokens for a literal string. -/
def tLit (s : String) : List RTok := s.data.map tL

/-! ## Lexicons and helpers (source lines 2482-2941 and HelpersPackage) -/

/-- Lookup in an association list by string key (a Python dict lookup;
all the embedded tables have distinct keys). -/
def lookupStr (tbl : List (String × α)) (k : String) : Option α :=
  (tbl.find? (fun p => p.1 == k)).map (fun p => p.2)

/-- Modelled from the spec: `RemoveHTMLDebris` lives in the external
HelpersPackage module (not under src/); the spec lists HTML-scraping
helpers as out-of-scope input cleaners.  Modeled as deleting the only
debris its name and call sites imply, literal break tags; it is the
identity on every string the claims exercise. -/
def RemoveHTMLDebris (s : String) : String :=
  pyReplace (pyReplace s "<br>" "") "</br>" ""

/-- Modelled from the spec: `IsInt` from HelpersPackage (not under
src/): whether Python `int(s)` succeeds. -/
def IsInt (s : String) : Bool := (pyInt? s).isSome

/-- Modelled from the spec: `CaseInsensitiveCompare` from
HelpersPackage (not under src/): equality of optional strings up to
ASCII case, `None` equal only to `None`. -/
def CaseInsensitiveCompare : Option String → Option String → Bool
  | none, none => true
  | some a, some b => pyToLower a == pyToLower b
  | _, _ => false

/-- Modelled from the spec: `InterpretRoman` from HelpersPackage (not
under src/), the Roman-numeral decoder over I, V, X, L, C: standard
subtractive reading (a value is subtracted when a strictly larger value
follows it). -/
def InterpretRoman (s : String) : Int :=
  let val : Char → Int := fun c =>
    if c = 'I' then 1 else if c = 'V' then 5 else if c = 'X' then 10
    else if c = 'L' then 50 else if c = 'C' then 100 else 0
  let rec go : List Char → Int
    | [] => 0
    | [c] => val c
    | c :: d :: rest => (if val c < val d then -val c else val c) + go (d :: rest)
  go s.data

/-- The month-name conversion table of `MonthNameToInt`
(source lines 2878-2898), in source order. -/
def monthConversionTable : List (String × Int) :=
  [("jan", 1), ("january", 1), ("1", 1),
   ("feb", 2), ("february", 2), ("feburary", 2), ("2", 2),
   ("mar", 3), ("march", 3), ("3", 3),
   ("apr", 4), ("april", 4), ("4", 4),
   ("may", 5), ("5", 5),
   ("jun", 6), ("june", 6), ("6", 6),
   ("jul", 7), ("july", 7), ("7", 7),
   ("aug", 8), ("august", 8), ("8", 8),
   ("sep", 9), ("sept", 9), ("september", 9), ("9", 9),
   ("oct", 10), ("october", 10), ("10", 10),
   ("nov", 11), ("november", 11), ("11", 11),
   ("dec", 12), ("december", 12), ("12", 12),
   ("1q", 1), ("q1", 1),
   ("4q", 4), ("q2", 4), ("2q", 4),
   ("7q", 7), ("q3", 7), ("3q", 7),
   ("10q", 10), ("q4", 10),
   ("spring", 4), ("spr", 4),
   ("summer", 7), ("sum", 7),
   ("fall", 10), ("autumn", 10), ("fal", 10),
   ("winter", 1), ("win", 1),
   ("xmas", 12), ("christmas", 12)]

/-- The regex of `MonthNameToInt` (source line 2903): two runs of
lower-case letters joined by a dash or slash, both captured. -/
def reMonthPair : List RTok :=
  [.grp [[.many1 pLower]], .e (.one pDashSlash), .grp [[.many1 pLower]]]

/-- `MonthNameToInt` (source lines 2877-2913): spaces removed and
lower-cased; two month names joined by `-` or `/` resolve to the
rounded-up mean; otherwise a conversion-table lookup.  The source's
recursive calls on the two captured runs receive lower-case alphabetic
strings on which the pair regex cannot match again, so they reduce to
table lookups, which is how they are written here. -/
def MonthNameToInt (text : String) : Option Int :=
  let t := pyToLower (pyReplace text " " "")
  match reMatch reMonthPair true t with
  | some [a, b] =>
      match lookupStr monthConversionTable a, lookupStr monthConversionTable b with
      | some m1, some m2 => some ((m1 + m2 + 1) / 2)
      | _, _ => lookupStr monthConversionTable t
  | _ => lookupStr monthConversionTable t

/-- `InterpretMonth` (source lines 2856-2872) on a string argument (the
integer overload returns its input and is not needed by any embedded
call site). -/
def InterpretMonth (monthData : String) : Option Int :=
  if (pyTrim monthData).data.isEmpty then none
  else
    let md := RemoveHTMLDebris monthData
    if md.isEmpty then none
    else MonthNameToInt (pyRemoveSuffix md ".")

/-- The named-day conversion table (source lines 2520-2586), in source
order.  The `"Late february or early march"` key is kept exactly as
written in the source: its capital letter makes it unreachable, since
lookups lower-case their key. -/
def namedDayTable : List (String × (Option Int × Option Int)) :=
  [("unknown", (none, none)),
   ("unknown ?", (none, none)),
   ("new year's day", (some 1, some 1)),
   ("edgar allen poe's birthday", (some 1, some 19)),
   ("edgar allan poe's birthday", (some 1, some 19)),
   ("edgar alan poe's birthday", (some 1, some 19)),
   ("groundhog day", (some 2, some 4)),
   ("daniel yergin day", (some 2, some 6)),
   ("canadian national flag day", (some 2, some 15)),
   ("national flag day", (some 2, some 15)),
   ("chinese new year", (some 2, some 15)),
   ("lunar new year", (some 2, some 15)),
   ("leap day", (some 2, some 29)),
   ("Late february or early march", (some 3, none)),
   ("ides of march", (some 3, some 15)),
   ("st urho's day", (some 3, some 16)),
   ("st. urho's day", (some 3, some 16)),
   ("saint urho's day", (some 3, some 16)),
   ("vernal equinox", (some 3, some 20)),
   ("spring equinox", (some 3, some 20)),
   ("april fool's day", (some 4, some 1)),
   ("good friday", (some 4, some 8)),
   ("easter", (some 4, some 10)),
   ("national garlic day", (some 4, some 19)),
   ("world free press day", (some 5, some 3)),
   ("cinco de mayo", (some 5, some 5)),
   ("victoria day", (some 5, some 22)),
   ("world no tobacco day", (some 5, some 31)),
   ("world environment day", (some 6, some 5)),
   ("great flood", (some 6, some 19)),
   ("summer solstice", (some 6, some 21)),
   ("world wide party", (some 6, some 21)),
   ("canada day", (some 7, some 1)),
   ("stampede", (some 7, some 10)),
   ("stampede rodeo", (some 7, some 10)),
   ("stampede parade", (some 7, some 10)),
   ("system administrator appreciation day", (some 7, some 25)),
   ("apres le deluge", (some 8, some 1)),
   ("august 14 to 16", (some 8, some 15)),
   ("international whale shark day", (some 8, some 30)),
   ("labor day", (some 9, some 3)),
   ("labour day", (some 9, some 3)),
   ("september 15 to 18", (some 9, some 17)),
   ("september 17 to 20", (some 9, some 19)),
   ("autumn equinox", (some 9, some 20)),
   ("fall equinox", (some 9, some 20)),
   ("(canadian) thanksgiving", (some 10, some 15)),
   ("halloween", (some 10, some 31)),
   ("october (halloween)", (some 10, some 31)),
   ("remembrance day", (some 11, some 11)),
   ("rememberance day", (some 11, some 11)),
   ("thanksgiving", (some 11, some 24)),
   ("around the end", (some 12, none)),
   ("november (december)", (some 12, none)),
   ("before christmas december", (some 12, some 15)),
   ("saturnalia", (some 12, some 21)),
   ("winter solstice", (some 12, some 21)),
   ("christmas", (some 12, some 25)),
   ("christmas issue", (some 12, some 25)),
   ("christmas issue december", (some 12, some 25)),
   ("xmas ish the end of december", (some 12, some 25)),
   ("boxing day", (some 12, some 26)),
   ("hogmanay", (some 12, some 31)),
   ("auld lang syne", (some 12, some 31)),
   ("over year end", (some 12, some 31))]

/-- `InterpretNamedDay` (source lines 2519-2590): table lookup of the
lower-cased, comma-stripped phrase. -/
def InterpretNamedDay (dayString : String) : Option (Option Int × Option Int) :=
  lookupStr namedDayTable (pyReplace (pyToLower dayString) "," "")

/-- The relative-word table of `InterpretRelativeWords`
(source lines 2597-2609). -/
def relativeWordTable : List (String × Int) :=
  [("start of", 1), ("early", 7), ("early in", 7), ("mid", 15), ("middle", 15),
   ("?", 15), ("middle late", 19), ("late", 24), ("end of", 30),
   ("the end of", 30), ("around the end of", 30)]

/-- `InterpretRelativeWords` (source lines 2596-2614): table lookup of
the phrase with commas and dashes turned into spaces, lower-cased. -/
def InterpretRelativeWords (daystring : String) : Option Int :=
  lookupStr relativeWordTable (pyToLower (pyReplace (pyReplace daystring "," " ") "-" " "))

/-- `InterpretMonthDay` (source lines 2823-2851).  Raises `IndexError`
(line 2847 indexes `pieces[1]`) when the input yields a single piece
that is not a month name; total otherwise. -/
def InterpretMonthDay (s : String) : Except PyErr (Option (Int × Option Int)) :=
  let s1 := pyRemoveSuffix (pyTrim s) ","
  let s2 := pyReplace (pyReplace (pyReplace s1 "    " " ") "   " " ") "  " " "
  match pySplitOn s2 " " with
  | [] => .error .indexError
  | [p] =>
      match MonthNameToInt p with
      | some m => .ok (some (m, none))
      | none => .error .indexError
  | _ :: _ :: _ :: _ => .ok none
  | [p0, p1] =>
      match MonthNameToInt p0, pyInt? p1 with
      | some m, some d => .ok (some (m, some d))
      | _, _ =>
          match MonthNameToInt p1, pyInt? p0 with
          | some m, some d => .ok (some (m, some d))
          | _, _ => .ok none

/-- `InterpretDay` (source lines 2718-2740) on a string argument.  When
the string is not a number but is a named day, the source returns
`d[0]`, the month component of the table entry, and that quirk is kept. -/
def InterpretDay (dayData : String) : Option Int :=
  if (pyTrim dayData).data.isEmpty then none
  else
    let dd := RemoveHTMLDebris dayData
    if dd.isEmpty then none
    else
      match pyInt? dd with
      | some v => some v
      | none =>
          match InterpretNamedDay dd with
          | none => none
          | some pr => pr.1

/-- A Python value that is `None`, an int, or a string: the
argument/result type of `YearAs4Digits`. -/
inductive PyVal where
  | vNone : PyVal
  | vInt : Int → PyVal
  | vStr : String → PyVal
  deriving Repr, DecidableEq

/-- The numeric core of `YearAs4Digits` (source lines 2650-2654). -/
def YearAs4DigitsInt (year : Int) : Int :=
  if year > 100 then year
  else if year < 33 then year + 2000
  else year + 1900

/-- `YearAs4Digits` (source lines 2642-2654): `None` passes through, a
string is converted to int when possible (else returned unchanged), and
numeric values are expanded to four digits. -/
def YearAs4Digits : PyVal → PyVal
  | .vNone => .vNone
  | .vStr s =>
      match pyInt? s with
      | none => .vStr s
      | some n => .vInt (YearAs4DigitsInt n)
  | .vInt n => .vInt (YearAs4DigitsInt n)

/-- `ValidFannishYear` (source lines 2659-2665): `None` gives the error
string `"0"`; otherwise the input is expanded by `YearAs4Digits` and
accepted only strictly between 1860 and 2100.  When the expansion is
still a string (a non-numeric input), the comparison `1860 < y` raises
`TypeError` in Python, embedded as an error. -/
def ValidFannishYear (ytext : Option String) : Except PyErr String :=
  match ytext with
  | none => .ok "0"
  | some s =>
      match YearAs4Digits (.vStr s) with
      | .vInt y => .ok (if 1860 < y && y < 2100 then intStr y else "0")
      | _ => .error .typeError

/-- `MonthLength` (source lines 2774-2780); Python returns `None` off
the 1..12 range. -/
def MonthLength (m : Int) : Option Int :=
  if m = 2 then some 28
  else if m = 4 ∨ m = 6 ∨ m = 9 ∨ m = 11 then some 30
  else if m = 1 ∨ m = 3 ∨ m = 5 ∨ m = 7 ∨ m = 8 ∨ m = 10 ∨ m = 12 then some 31
  else none

/-- `ValidateDay` (source lines 2670-2676).  The chained comparison
`0 < d <= monthlength` short-circuits, so `d ≤ 0` answers false even
for an invalid month; a positive day with an invalid month compares an
int against `None` and raises. -/
def ValidateDay (d : Int) (m : Int) (year : Option Int) : Except PyErr Bool :=
  let monthlength := MonthLength m
  let monthlength :=
    match year with
    | some y => if y % 4 = 0 ∧ y % 400 ≠ 0 ∧ m = 2 then some 29 else monthlength
    | none => monthlength
  if d ≤ 0 then .ok false
  else
    match monthlength with
    | none => .error .typeError
    | some L => .ok (decide (d ≤ L))

/-- Every month length the table defines is at least 28. -/
theorem monthLength_ge (m L : Int) (h : MonthLength m = some L) : 28 ≤ L := by
  unfold MonthLength at h
  split at h
  · injection h with h2; omega
  · split at h
    · injection h with h2; omega
    · split at h
      · injection h with h2; omega
      · exact Option.noConfusion h

/-- Months 1..12 all have a defined length. -/
theorem monthLength_isSome (m : Int) (h1 : 1 ≤ m) (h2 : m ≤ 12) :
    ∃ L, MonthLength m = some L := by
  unfold MonthLength
  split
  · exact ⟨28, rfl⟩
  · split
    · exact ⟨30, rfl⟩
    · split
      · exact ⟨31, rfl⟩
      · omega

/-- Python `y - 1` on an optional int: raises on `None`. -/
def decYear : Option Int → Except PyErr (Option Int)
  | some yv => .ok (some (yv - 1))
  | none => .error .typeError

/-- Python `y + 1` on an optional int: raises on `None`. -/
def incYear : Option Int → Except PyErr (Option Int)
  | some yv => .ok (some (yv + 1))
  | none => .error .typeError

/-- The negative-day loop of `BoundDay` (source lines 2799-2806): while
the day is below one, step the month back (`m-1`, wrapping to December
and decrementing the year when it hits zero) and add that month's
length. -/
def boundDayNeg (d m : Int) (y : Option Int) : Except PyErr (Int × Int × Option Int) :=
  if hd : d < 1 then
    match (if m - 1 < 1 then decYear y else .ok y) with
    | .error e => .error e
    | .ok y2 =>
        match hL : MonthLength (if m - 1 < 1 then 12 else m - 1) with
        | none => .error .typeError
        | some L => boundDayNeg (d + L) (if m - 1 < 1 then 12 else m - 1) y2
  else .ok (d, m, y)
  termination_by (1 - d).toNat
  decreasing_by
    have := monthLength_ge _ L hL
    omega

/-- The overflow loop of `BoundDay` (source lines 2809-2814): while the
day exceeds the month's length, subtract that length and step the month
forward (`m+1`, wrapping to January and incrementing the year past
December).  The while condition itself compares against
`MonthLength(m)`, so an invalid month raises there. -/
def boundDayPos (d m : Int) (y : Option Int) : Except PyErr (Int × Int × Option Int) :=
  match hL : MonthLength m with
  | none => .error .typeError
  | some L =>
      if hd : d > L then
        match (if m + 1 > 12 then incYear y else .ok y) with
        | .error e => .error e
        | .ok y2 => boundDayPos (d - L) (if m + 1 > 12 then 1 else m + 1) y2
      else .ok (d, m, y)
  termination_by d.toNat
  decreasing_by
    have := monthLength_ge m L hL
    omega

/-- `BoundDay` (source lines 2785-2816): `None` day or month rejects;
a day below -10 or above 60 rejects as a typo; otherwise the day is
rolled into an adjacent month by the two loops. -/
def BoundDay (d m y : Option Int) : Except PyErr (Option Int × Option Int × Option Int) :=
  match d with
  | none => .ok (none, none, none)
  | some d =>
      match m with
      | none => .ok (none, none, none)
      | some m =>
          if d < -10 ∨ d > 60 then .ok (none, none, none)
          else
            -- the normal case 1 <= d <= MonthLength(m); the chained
            -- comparison short-circuits, so the month length is only
            -- consulted when 1 ≤ d
            if 1 ≤ d then
              match MonthLength m with
              | none => .error .typeError
              | some L =>
                  if d ≤ L then .ok (some d, some m, y)
                  else
                    match boundDayPos d m y with
                    | .error e => .error e
                    | .ok (d2, m2, y2) => .ok (some d2, some m2, y2)
            else
              match boundDayNeg d m y with
              | .error e => .error e
              | .ok (d2, m2, y2) => .ok (some d2, some m2, y2)

/-- `YearName` (source lines 2510-2513): empty for `None` or zero, else
the decimal rendering of the four-digit expansion. -/
def YearName (year : Option Int) : String :=
  match year with
  | none => ""
  | some y => if y = 0 then "" else intStr (YearAs4DigitsInt y)

/-- Modelled from the spec: `ToNumeric` from HelpersPackage (not under
src/) converts a number or a numeric string to its numeric value;
non-numeric input is modeled as `None`.  Every embedded call site feeds
it an int or a string of digits. -/
def ToNumericVal : PyVal → Option Int
  | .vInt n => some n
  | .vStr s => pyInt? s
  | .vNone => none

/-! ## FanzineDate (source lines 353-911) -/

/-- Python truth of `s is not None and len(s) > 0` for an optional
string. -/
def optStrNonempty : Option String → Bool
  | some t => t.length > 0
  | none => false

/-- The stored fields of a `FanzineDate` (`_Year`, `_Month`,
`_MonthText`, `_Day`, `_DayText`, `_MonthDayText`, `_LongDates`). -/
structure FanzineDate where
  Year : Option Int
  Month : Option Int
  MonthText : Option String
  Day : Option Int
  DayText : Option String
  MonthDayText : Option String
  LongDates : Bool
  deriving Repr, DecidableEq

namespace FanzineDate

/-- The `Year` setter (source lines 506-511), non-string branch:
`_Year = YearAs4Digits(val)`. -/
def setYearInt (fd : FanzineDate) (val : Option Int) : FanzineDate :=
  { fd with Year := val.map YearAs4DigitsInt }

/-- The `Year` setter (source lines 506-511), string branch:
`_Year = ToNumeric(YearAs4Digits(val))`. -/
def setYearStr (fd : FanzineDate) (val : String) : FanzineDate :=
  { fd with Year := ToNumericVal (YearAs4Digits (.vStr val)) }

/-- The `Month` setter (source lines 523-533), int-or-None branch: the
numeric month is stored and any month text is cleared. -/
def setMonthNum (fd : FanzineDate) (val : Option Int) : FanzineDate :=
  { fd with Month := val, MonthText := none }

/-- The `Month` setter (source lines 523-533), string branch: the
numeric month is computed from the text. -/
def setMonthStr (fd : FanzineDate) (val : String) : FanzineDate :=
  { fd with Month := InterpretMonth val,
            MonthText := if val.length > 0 then some val else none }

/-- The `Month` setter (source lines 523-533), tuple branch.  The
source guards the text with `len(val) > 0`, the length of the tuple
(always 2), so the text component is stored as given. -/
def setMonthTup (fd : FanzineDate) (m : Option Int) (t : Option String) : FanzineDate :=
  { fd with Month := m, MonthText := t }

/-- The `MonthText` setter (source lines 543-545). -/
def setMonthText (fd : FanzineDate) (mt : Option String) : FanzineDate :=
  { fd with MonthText := mt }

/-- The `Day` setter (source lines 551-561), int-or-None branch. -/
def setDayNum (fd : FanzineDate) (val : Option Int) : FanzineDate :=
  { fd with Day := val, DayText := none }

/-- The `Day` setter (source lines 551-561), string branch. -/
def setDayStr (fd : FanzineDate) (val : String) : FanzineDate :=
  { fd with Day := if val.length > 0 then ToNumericVal (.vStr val) else none,
            DayText := if val.length > 0 then some val else none }

/-- The `Day` setter (source lines 551-561), tuple branch (same
`len(val) > 0` tuple-length guard as the month tuple branch). -/
def setDayTup (fd : FanzineDate) (d : Option Int) (t : Option String) : FanzineDate :=
  { fd with Day := d, DayText := t }

/-- The `MonthDayText` setter (source lines 577-579). -/
def setMonthDayText (fd : FanzineDate) (v : Option String) : FanzineDate :=
  { fd with MonthDayText := v }

/-- A `FanzineDate` with every field unset. -/
def emptyDate : FanzineDate :=
  { Year := none, Month := none, MonthText := none, Day := none,
    DayText := none, MonthDayText := none, LongDates := false }

/-- `FanzineDate.__init__` (source lines 354-389) for the argument
shapes its call sites use (ints, strings for the text fields, `None`).
When both `Month` and `MonthText` are given the constructor re-binds
`Month` to the pair, so the line-375 re-interpretation of a lone
`MonthText` can never fire once a text is present; when only `DayText`
is given, the day is interpreted from it and the setter's int branch
then clears the stored day text, exactly as the source does. -/
def mkNew (Year : Option Int) (Month : Option Int) (MonthText : Option String)
    (Day : Option Int) (DayText : Option String) (MonthDayText : Option String) :
    FanzineDate :=
  let fd := setYearInt emptyDate Year
  let fd :=
    match MonthText with
    | some mt => setMonthTup fd Month (some mt)
    | none => setMonthNum fd Month
  let fd :=
    match Day, DayText with
    | some d, some t => setDayTup fd (some d) (some t)
    | some d, none => setDayNum fd (some d)
    | none, some t => setDayNum fd (InterpretDay t)
    | none, none => fd
  { fd with MonthDayText := MonthDayText, LongDates := false }

/-- `FanzineDate.IsEmpty` (source lines 623-634), testing the fields in
source order: non-empty day text, day, month, year, non-empty month
text. -/
def IsEmpty (fd : FanzineDate) : Bool :=
  if optStrNonempty fd.DayText then false
  else if fd.Day.isSome then false
  else if fd.Month.isSome then false
  else if fd.Year.isSome then false
  else if optStrNonempty fd.MonthText then false
  else true

/-- `FanzineDate.__eq__` (source lines 418-431) between two date
objects (the `other is None` branch needs no embedding here since both
arguments are dates): empty equals empty; a side with no numeric field
at all is equal to nothing else; otherwise the three numeric fields
must agree, `None` matching `None`. -/
def beqDate (a b : FanzineDate) : Bool :=
  if a.IsEmpty && b.IsEmpty then true
  else if a.Year.isNone && a.Month.isNone && a.Day.isNone then false
  else if b.Year.isNone && b.Month.isNone && b.Day.isNone then false
  else a.Year == b.Year && a.Month == b.Month && a.Day == b.Day

/-- `FanzineDate.__lt__` (source lines 452-471): year, then month, then
day; at each stage an undefined field on the left answers true at once
(whatever the right holds) and an undefined field on the right answers
false; defined unequal values compare numerically; all stages exhausted
answers false. -/
def ltDate (a b : FanzineDate) : Bool :=
  match a.Year with
  | none => true
  | some ya =>
      match b.Year with
      | none => false
      | some yb =>
          if ya ≠ yb then decide (ya < yb)
          else
            match a.Month with
            | none => true
            | some ma =>
                match b.Month with
                | none => false
                | some mb =>
                    if ma ≠ mb then decide (ma < mb)
                    else
                      match a.Day with
                      | none => true
                      | some da =>
                          match b.Day with
                          | none => false
                          | some db => if da ≠ db then decide (da < db) else false

/-- `FanzineDate.FormatDateForSorting` (source lines 692-705):
`YYYY-MM_DD` with absent fields rendered as zeros. -/
def FormatDateForSorting (fd : FanzineDate) : String :=
  let y := match fd.Year with | none => "0000" | some yr => YearName (some yr)
  let m := match fd.Month with | none => "00" | some mo => pyFormat02 mo
  let d := match fd.Day with | none => "00" | some dy => pyFormat02 dy
  y ++ "-" ++ m ++ "_" ++ d

end FanzineDate

/-- Modelled from the spec: `Int` from HelpersPackage (not under
src/): the integer value of a numeric string, modeled as `None` on
failure.  Every embedded call site passes a string of digits. -/
def HelpersInt (s : String) : Option Int := pyInt? s

/-- `InterpretRandomDatestring` (source lines 2919-2940): the fixed
table of otherwise uninterpretable date strings, compared after
lower-casing and comma removal. -/
def InterpretRandomDatestring (text : String) : Option FanzineDate :=
  let t := pyReplace (pyToLower text) "," ""
  if t == "solar eclipse 2017" then
    some (FanzineDate.mkNew (some 2017) (some 8) none (some 21) (some "Solar Eclipse") none)
  else if t == "2018 new year's day" then
    some (FanzineDate.mkNew (some 2018) (some 1) none (some 1) (some "New Years Day") none)
  else if t == "christmas 2015." then
    some (FanzineDate.mkNew (some 2015) (some 12) none (some 25) (some "Christmas") none)
  else if t == "hogmanay 1991/1992" then
    some (FanzineDate.mkNew (some 1991) (some 12) none (some 31) (some "Hogmany") none)
  else if t == "grey cup day 2014" then
    some (FanzineDate.mkNew (some 2014) (some 11) none (some 11) (some "Grey Cup Day") none)
  else if t == "october 2013 halloween" then
    some (FanzineDate.mkNew (some 2013) (some 10) none (some 31) (some "Halloween") none)
  else if t == "october (halloween) 2015" then
    some (FanzineDate.mkNew (some 2015) (some 10) none (some 31) (some "Halloween") none)
  else if t == "november (december) 2015" then
    some (FanzineDate.mkNew (some 2015) (some 12) none (some 1) (some "November (December)") none)
  else if t == "stampede parade day 2019" then
    some (FanzineDate.mkNew (some 2019) (some 7) none (some 5) (some "Stampede Parade Day") none)
  else none

/-! ### The regexes of `FanzineDate.Match`, in cascade order -/

/-- The capturing group matching a 2- or 4-digit year. -/
def grpYear2or4 : RTok :=
  .grp [[.one pD, .one pD], [.one pD, .one pD, .one pD, .one pD]]

/-- Source line 739: a lone 4-digit number, captured. -/
def reYear4 : List RTok := [.grp [[.one pD, .one pD, .one pD, .one pD]]]

/-- Source line 747: one or two digits, slash, one or two digits,
slash, a 2- or 4-digit year, all captured. -/
def reSlashDate : List RTok :=
  [.grp [[.one pD, .opt pD]], tL '/', .grp [[.one pD, .opt pD]], tL '/', grpYear2or4]

/-- Source line 774: a run of word characters, whitespace, dashes,
apostrophes and commas (captured), an optional character, whitespace,
then a 2- or 4-digit year (captured). -/
def reMonthYear : List RTok :=
  [.grp [[.many1 pSWcls]], .e (.opt pDot), .e (.many1 pS), grpYear2or4]

/-- Source line 805: like `reMonthYear` but with a captured run of
digits and an optional comma before the year. -/
def reMonthDayYear : List RTok :=
  [.grp [[.many1 pSWcls]], .e (.opt pDot), .e (.many1 pS), .grp [[.many1 pD]],
   .e (.opt (pC ',')), .e (.many1 pS), grpYear2or4]

/-- Source line 821: one or two digits (captured), whitespace, then
the month-text run and the year as in `reMonthYear`. -/
def reDayMonthYear : List RTok :=
  [.grp [[.one pD, .opt pD]], .e (.many1 pS), .grp [[.many1 pSWcls]],
   .e (.opt pDot), .e (.many1 pS), grpYear2or4]

/-- Source line 837: a lazily-matched nonempty prefix (captured),
commas or whitespace, then a 2- or 4-digit year (captured). -/
def reNamedDayYear : List RTok :=
  [.grp [[.many1ng pDot]], .e (.many1 pCommaWS), grpYear2or4]

/-- Source line 853: literal `Winter`, commas or whitespace, four
digits, a dash with optional spaces, then two captured digits. -/
def reWinterRange : List RTok :=
  tLit "Winter" ++
  [.e (.many1 pCommaWS), .e (.one pD), .e (.one pD), .e (.one pD), .e (.one pD),
   .e (.many0 pS), tL '-', .e (.many0 pS), .grp [[.one pD, .one pD]]]

/-- Source line 860: word run (captured), dash or slash with optional
spaces, word run (captured), one whitespace, optional comma, optional
spaces, four digits (captured). -/
def reMonthPairYear : List RTok :=
  [.grp [[.many1 pW]], .e (.many0 pS), .e (.one pDashSlash), .e (.many0 pS),
   .grp [[.many1 pW]], .e (.one pS), .e (.opt (pC ',')), .e (.many0 pS),
   .grp [[.one pD, .one pD, .one pD, .one pD]]]

/-- Source line 874: four digits, a dash with optional spaces, then
two captured digits. -/
def reYearRange : List RTok :=
  [.e (.one pD), .e (.one pD), .e (.one pD), .e (.one pD),
   .e (.many0 pS), tL '-', .e (.many0 pS), .grp [[.one pD, .one pD]]]

/-- Source line 883: word run (captured), whitespace, digit run
(captured), optional comma, whitespace, 2- or 4-digit year (captured). -/
def reBoundedMDY : List RTok :=
  [.grp [[.many1 pW]], .e (.many1 pS), .grp [[.many1 pD]],
   .e (.opt (pC ',')), .e (.many1 pS), grpYear2or4]

/-! ### The branches of `FanzineDate.Match` (source lines 719-911)

Each branch returns `none` when control falls through to the next
pattern of the cascade, and `some r` when the source returns (or
raises) there. -/

namespace FanzineDate

/-- A branch's outcome: `none` falls through the cascade. -/
abbrev DBranch := Option (Except PyErr FanzineDate)

/-- Source lines 738-744: a 4-digit number alone is a year, subject to
fannish-year validation. -/
def matchBareYear (dateText : String) : DBranch :=
  match reMatch reYear4 true dateText with
  | some [g0] =>
      match ValidFannishYear (some g0) with
      | .error e => some (.error e)
      | .ok y => if y ≠ "0" then some (.ok (setYearStr emptyDate y)) else none
  | _ => none

/-- Source lines 746-770: `mm/dd/yy(yy)`, trying US month/day order
first and the European day/month order second. -/
def matchSlashDate (dateText : String) : DBranch :=
  match reMatch reSlashDate true dateText with
  | some [g1t, g2t, yt] =>
      match ValidFannishYear (some yt) with
      | .error e => some (.error e)
      | .ok ys =>
          match pyInt? ys with
          | none => some (.error .valueError)
          | some y =>
              match pyInt? g1t, pyInt? g2t with
              | some a, some b =>
                  -- US order: month = first group, day = second group
                  (match ValidateDay b a (some y) with
                   | .error e => some (.error e)
                   | .ok true =>
                       some (.ok (setDayNum (setMonthNum (setYearInt emptyDate (some y)) (some a)) (some b)))
                   | .ok false =>
                       -- European order: day = first group, month = second group
                       match ValidateDay a b (some y) with
                       | .error e => some (.error e)
                       | .ok true =>
                           some (.ok (setDayNum (setMonthNum (setYearInt emptyDate (some y)) (some b)) (some a)))
                       | .ok false => none)
              | _, _ => some (.error .valueError)
  | _ => none

/-- Source lines 772-802: `<month-text> <year>`, trying the month/day
token parse first and the relative-words parse second.  As in the
source, the month/day success stores the raw year text through the
string setter while the relative-words success stores the
`ValidFannishYear` result. -/
def matchMonthYear (dateText : String) : DBranch :=
  match reMatch reMonthYear true dateText with
  | some [g0, ytext] =>
      let mtext := pyReplace (pyReplace g0 "," " ") "  " " "
      match ValidFannishYear (some ytext) with
      | .error e => some (.error e)
      | .ok y =>
          let monthDayPart : DBranch :=
            if (InterpretMonth mtext).isSome then
              match InterpretMonthDay mtext with
              | .error e => some (.error e)
              | .ok (some md) =>
                  some (.ok (setDayNum (setMonthNum (setYearStr emptyDate ytext) (some md.1)) md.2))
              | .ok none => none
            else none
          match monthDayPart with
          | some r => some r
          | none =>
              let tokens := splitWS (pyReplace (pyReplace mtext "-" " ") "," " ")
              match tokens.getLast? with
              | none => none
              | some last =>
                  let modifier := pyJoin " " tokens.dropLast
                  match MonthNameToInt last, InterpretRelativeWords modifier with
                  | some m, some d =>
                      some (.ok (setDayTup (setMonthNum (setYearStr emptyDate y) (some m)) (some d) (some modifier)))
                  | _, _ => none
  | _ => none

/-- Source lines 804-817: `<month-text>[.] <day>, <year>`, the handler
for abbreviated month names followed by a period. -/
def matchMonthDayYear (dateText : String) : DBranch :=
  match reMatch reMonthDayYear true dateText with
  | some [g0, dtext, ytext] =>
      let mtext := pyReplace (pyReplace g0 "," " ") "  " " "
      match ValidFannishYear (some ytext) with
      | .error e => some (.error e)
      | .ok _y =>
          match InterpretMonth mtext with
          | some m =>
              some (.ok (setDayNum (setMonthNum (setYearStr emptyDate ytext) (some m)) (HelpersInt dtext)))
          | none => none
  | _ => none

/-- Source lines 819-833: `<day> <month-text>[.] <year>`. -/
def matchDayMonthYear (dateText : String) : DBranch :=
  match reMatch reDayMonthYear true dateText with
  | some [dtext, g1, ytext] =>
      let mtext := pyReplace (pyReplace g1 "," " ") "  " " "
      match ValidFannishYear (some ytext) with
      | .error e => some (.error e)
      | .ok _y =>
          match InterpretMonth mtext with
          | some m =>
              some (.ok (setDayNum (setMonthNum (setYearStr emptyDate ytext) (some m)) (HelpersInt dtext)))
          | none => none
  | _ => none

/-- Source lines 835-849: `<named-day phrase> <year>` against the
named-day table.  The source's `self.MonDayText=mtext` (line 848) sets
a misspelled attribute, not the `_MonthDayText` field, so it changes no
stored field and is not represented. -/
def matchNamedDayYear (dateText : String) : DBranch :=
  match reMatch reNamedDayYear true dateText with
  | some [g0, ytext] =>
      let mtext := pyReplace (pyReplace g0 "," " ") "  " " "
      match ValidFannishYear (some ytext) with
      | .error e => some (.error e)
      | .ok y =>
          match InterpretNamedDay mtext with
          | some rslt =>
              some (.ok (setDayNum (setMonthNum (setYearStr emptyDate y) rslt.1) rslt.2))
          | none => none
  | _ => none

/-- Source lines 851-855: `Winter yyyy-yy` means January of the second
year. -/
def matchWinter (dateText : String) : DBranch :=
  match reMatch reWinterRange true dateText with
  | some [g0] =>
      match pyInt? g0 with
      | none => some (.error .valueError)
      | some yi => some (.ok (mkNew (some yi) (some 1) (some "Winter") none none none))
  | _ => none

/-- Source lines 857-871: `<month1>-<month2> <yyyy>` (or with a slash)
resolves to the first month with both names kept as display text. -/
def matchMonthPairYear (dateText : String) : DBranch :=
  match reMatch reMonthPairYear true dateText with
  | some [month1, month2, year] =>
      match InterpretMonth month1 with
      | some m =>
          match pyInt? year with
          | none => some (.error .valueError)
          | some y =>
              some (.ok (setMonthText (setMonthNum (setYearInt emptyDate (some y)) (some m))
                          (some (month1 ++ "-" ++ month2))))
      | none => none
  | _ => none

/-- Source lines 873-878: `yyyy-yy` alone gives January of the second
(two-digit) year; `int` of the captured two digits runs through the
integer year setter's two-digit expansion. -/
def matchYearRange (dateText : String) : DBranch :=
  match reMatch reYearRange true dateText with
  | some [g0] =>
      match pyInt? g0 with
      | none => some (.error .valueError)
      | some yi => some (.ok (setMonthNum (setYearInt emptyDate (some yi)) (some 1)))
  | _ => none

/-- Source lines 881-896: `<month> <day>, <year>` with a possibly
out-of-range day, run through `BoundDay`. -/
def matchBoundedMDY (dateText : String) : DBranch :=
  match reMatch reBoundedMDY true dateText with
  | some [mtext, dtext, ytext] =>
      match ValidFannishYear (some ytext) with
      | .error e => some (.error e)
      | .ok ys =>
          match pyInt? ys with
          | none => some (.error .valueError)
          | some y =>
              match InterpretMonth mtext, InterpretDay dtext with
              | some m, some d =>
                  match BoundDay (some d) (some m) (some y) with
                  | .error e => some (.error e)
                  | .ok (bd, bm, byr) =>
                      some (.ok (setDayNum (setMonthNum (setYearInt emptyDate byr) bm) bd))
              | _, _ => none
  | _ => none

/-- `FanzineDate.Match` (source lines 719-911).  `ext` stands for the
external `dateutil` parser of the final fallback (source lines
898-908): `some (y, m, d)` is a parse that is not the sentinel default,
`none` covers both an exception (suppressed) and the sentinel. -/
def MatchE (ext : String → Option (Int × Int × Int)) (s : String)
    (strict : Bool := false) (complete : Bool := true) : Except PyErr FanzineDate :=
  let dateText := pyTrim s
  if dateText.data.isEmpty then .ok emptyDate
  else
    let dateText := pyReplace (pyReplace dateText "—" "-") "--" "-"
    let cascade : DBranch :=
      ((InterpretRandomDatestring dateText).map .ok) <|>
      matchBareYear dateText <|>
      matchSlashDate dateText <|>
      matchMonthYear dateText <|>
      matchMonthDayYear dateText <|>
      matchDayMonthYear dateText <|>
      matchNamedDayYear dateText <|>
      matchWinter dateText <|>
      matchMonthPairYear dateText <|>
      matchYearRange dateText <|>
      matchBoundedMDY dateText <|>
      (if !strict && !complete then
        match ext dateText with
        | some (yy, mm, dd) =>
            some (.ok (setDayNum (setMonthNum (setYearInt emptyDate (some yy)) (some mm)) (some dd)))
        | none => none
      else none)
    match cascade with
    | some r => r
    | none => .ok emptyDate

end FanzineDate

/-! ## FanzineSerial (source lines 1153-1562) -/

/-- Python value like `1.5` for `{0:7.2f}` formatting: floor of the
value in hundredths, rendered with two decimals and right-justified to
width seven.  Exact for the integral (and two-decimal) values the
embedded code produces; the binary rounding of Python floats on other
values is not modeled. -/
def fmt72 (q : ℚ) : String :=
  let cents : Int := Int.floor (q * 100)
  let a := cents.natAbs
  let core := (if cents < 0 then "-" else "") ++ String.mk (natDec (a / 100)) ++ "." ++
    String.mk (padDec 2 (a % 100))
  if core.length < 7 then String.mk (List.replicate (7 - core.length) ' ') ++ core else core

/-- The stored fields of a `FanzineSerial` (`_Vol`, `_Num`,
`_NumSuffix`, `_Whole`, `_WSuffix`).  The numeric fields are `ℚ`
because Python holds fractional issue numbers in them. -/
structure FanzineSerial where
  Vol : Option ℚ
  Num : Option ℚ
  NumSuffix : Option String
  Whole : Option ℚ
  WSuffix : Option String
  deriving Repr, DecidableEq

namespace FanzineSerial

/-- The `NumSuffix` setter (source lines 1295-1299): `None` is stored
as the empty string. -/
def setNumSuffix (s : FanzineSerial) (val : Option String) : FanzineSerial :=
  match val with
  | none => { s with NumSuffix := some "" }
  | some v => { s with NumSuffix := some v }

/-- The `WSuffix` setter (source lines 1315-1319): `None` is stored as
the empty string. -/
def setWSuffix (s : FanzineSerial) (val : Option String) : FanzineSerial :=
  match val with
  | none => { s with WSuffix := some "" }
  | some v => { s with WSuffix := some v }

/-- `FanzineSerial.__init__` (source lines 1155-1167): fields preset,
then the property setters run; the numeric setters (`SetIntProperty`,
lines 1265-1270) pass ints and `None` through unchanged (their string
branch is exercised by no embedded call site, which convert digit
strings before constructing). -/
def mkSerial (Vol Num : Option ℚ) (NumSuffix : Option String) (Whole : Option ℚ)
    (WSuffix : Option String) : FanzineSerial :=
  let s : FanzineSerial :=
    { Vol := none, Num := none, Whole := none, WSuffix := some "", NumSuffix := some "" }
  let s := { s with Vol := Vol }
  let s := { s with Num := Num }
  let s := setNumSuffix s NumSuffix
  let s := { s with Whole := Whole }
  setWSuffix s WSuffix

/-- A `FanzineSerial` built with every argument `None` (what
`FanzineSerial()` gives): suffixes hold the empty string. -/
def emptySerial : FanzineSerial := mkSerial none none none none none

/-- `__NumEq__` (source lines 1181-1182). -/
def NumEq (a b : FanzineSerial) : Bool :=
  a.Num == b.Num && CaseInsensitiveCompare a.NumSuffix b.NumSuffix

/-- `__VolEq__` (source lines 1185-1186). -/
def VolEq (a b : FanzineSerial) : Bool := a.Vol == b.Vol

/-- `__WEq__` (source lines 1189-1190). -/
def WEq (a b : FanzineSerial) : Bool :=
  a.Whole == b.Whole && CaseInsensitiveCompare a.WSuffix b.WSuffix

/-- `__VNEq__` (source lines 1193-1194). -/
def VNEq (a b : FanzineSerial) : Bool := VolEq a b && NumEq a b

/-- `FanzineSerial.__eq__` (source lines 1199-1209). -/
def beqSerial (a b : FanzineSerial) : Bool :=
  if a.Whole.isSome && WEq a b then true
  else if WEq a b && VNEq a b then true
  else if (a.Whole.isNone || b.Whole.isNone) && VNEq a b then true
  else false

/-- `FanzineSerial.__lt__` (source lines 1218-1253).  When both wholes
are defined, compare them and then their suffixes (a suffixed whole
ranks above a bare one); the suffix tie-break is skipped only when both
suffixes are `None`, which the setters never produce.  When a whole is
missing, compare volumes, and on equal volumes only the definedness of
the issue numbers: two defined numbers are not compared, and the final
fall-through answers false. -/
def ltSerial (a : FanzineSerial) (b? : Option FanzineSerial) : Bool :=
  match b? with
  | none => false
  | some b =>
      let wholeBranch : Option Bool :=
        match a.Whole, b.Whole with
        | some wa, some wb =>
            if wa < wb then some true
            else if wa > wb then some false
            else if a.WSuffix.isSome || b.WSuffix.isSome then
              match b.WSuffix with
              | none => some false
              | some sb =>
                  match a.WSuffix with
                  | none => some true
                  | some sa => some (strLt sa sb)
            else none
        | _, _ => none
      match wholeBranch with
      | some r => r
      | none =>
          match a.Vol, b.Vol with
          | some va, some vb =>
              if va < vb then true
              else if va > vb then false
              else
                match a.Num, b.Num with
                | none, none => false
                | none, some _ => true
                | some _, none => false
                | some _, some _ => false
          | _, _ => false

/-- `FanzineSerial.IsEmpty` (source lines 1323-1334), fields tested in
source order. -/
def IsEmptyS (s : FanzineSerial) : Bool :=
  if optStrNonempty s.NumSuffix then false
  else if s.Num.isSome then false
  else if s.Whole.isSome then false
  else if s.Vol.isSome then false
  else if optStrNonempty s.WSuffix then false
  else true

/-- `FanzineSerial.FormatSerialForSorting` (source lines 1448-1465).
The suffix concatenations read the stored strings; a `None` suffix
would raise in Python and never occurs on constructed serials, so it is
rendered as the empty string here. -/
def FormatSerialForSorting (s : FanzineSerial) : String :=
  if s.Whole.isSome && s.Vol.isSome && s.Num.isSome then
    "#" ++ fmt72 (s.Whole.getD 0) ++ "  (V" ++ fmt72 (s.Vol.getD 0) ++ "#" ++
      fmt72 (s.Num.getD 0) ++ ")" ++ s.NumSuffix.getD ""
  else if s.Whole.isSome then
    "#" ++ fmt72 (s.Whole.getD 0) ++ s.WSuffix.getD ""
  else if s.Vol.isNone && s.Num.isNone then "0000.00"
  else
    let v := match s.Vol with | some x => fmt72 x | none => "0000.00"
    let n := match s.Num with | some x => fmt72 x | none => "0000.00"
    "V" ++ v ++ "#" ++ n ++ s.NumSuffix.getD ""

end FanzineSerial

/-! ### The regexes of `FanzineSerial.Match`, in cascade order -/

/-- Source line 1486: `V`, digits, optional spaces, `#`, digits, an
optional word character, anchored at the start only. -/
def reSerVolNum : List RTok :=
  [tL 'V', .grp [[.many1 pD]], .e (.many0 pS), tL '#', .grp [[.many1 pD]], .grp [[.opt pW]]]

/-- Source line 1500: `Vol` in any case mix of the `ol`, optional
spaces, digits, optional spaces, `#`, digits, an optional word
character, end-anchored. -/
def reSerVolWord : List RTok :=
  [tL 'V', .e (.one (fun c => c = 'o' || c = 'O')), .e (.one (fun c => c = 'l' || c = 'L')),
   .e (.many0 pS), .grp [[.many1 pD]], .e (.many0 pS), tL '#', .grp [[.many1 pD]],
   .grp [[.opt pW]]]

/-- Source line 1509: digits, whitespace, digits, slash, digits (a
whole number with a fraction). -/
def reSerFraction : List RTok :=
  [.grp [[.many1 pD]], .e (.many1 pS), .grp [[.many1 pD]], tL '/', .grp [[.many1 pD]]]

/-- Source line 1515: digits, slash, digits (vol/num). -/
def reSerVolSlashNum : List RTok :=
  [.grp [[.many1 pD]], tL '/', .grp [[.many1 pD]]]

/-- Source line 1521: Roman-numeral characters, slash, digits. -/
def reSerRomanSlash : List RTok :=
  [.grp [[.many1 pRoman]], tL '/', .grp [[.many1 pD]]]

/-- Source line 1528: digits, dash, digits (an issue range; only the
start is kept by this matcher). -/
def reSerRange : List RTok :=
  [.grp [[.many1 pD]], tL '-', .grp [[.many1 pD]]]

/-- Source line 1534: `#` then digits. -/
def reSerHash : List RTok := [tL '#', .grp [[.many1 pD]]]

/-- Source line 1541: a lazy prefix then a trailing decimal number. -/
def reSerDecimal : List RTok :=
  [.e (.many0ng pDot), .grp [[.many1 pD, .one (pC '.'), .many1 pD]]]

/-- Source line 1548: a lazy prefix, trailing digits, an optional
letter, optional trailing whitespace. -/
def reSerTrailingNum : List RTok :=
  [.e (.many0ng pDot), .grp [[.many1 pD]], .grp [[.opt pAlpha]], .e (.many0 pS)]

/-- Source line 1557: a lazy prefix, whitespace, Roman-numeral
characters, optional trailing whitespace. -/
def reSerTrailingRoman : List RTok :=
  [.e (.many0ng pDot), .e (.many1 pS), .grp [[.many1 pRoman]], .e (.many0 pS)]

namespace FanzineSerial

/-- The rational value of a digit-string capture (always defined on
regex captures of `\d+`); `None` mirrors an `int()` failure. -/
def qOfDigits (g : String) : Option ℚ := (pyInt? g).map (fun n => (n : ℚ))

/-- The exact value of a `\d+.\d+` capture (Python converts it with
`float`, whose binary rounding is not modeled; the stored value here is
the exact decimal). -/
def pyDecimal (s : String) : Option ℚ :=
  match pySplitOn s "." with
  | [a, b] =>
      match pyInt? a, pyInt? b with
      | some ia, some ib => some ((ia : ℚ) + (ib : ℚ) / ((10 : ℚ) ^ b.length))
      | _, _ => none
  | _ => none

/-- A branch's outcome in the serial cascade. -/
abbrev SBranch := Option (Except PyErr FanzineSerial)

/-- `FanzineSerial.Match` (source lines 1482-1562); `scan` is accepted
and ignored exactly as in the source.  The last two patterns run only
when neither `strict` nor `complete` is set. -/
def MatchS (s : String) (scan : Bool := false) (strict : Bool := false)
    (complete : Bool := false) : Except PyErr FanzineSerial :=
  let _ := scan
  let t := pyTrim s
  let cascade : SBranch :=
    (match reMatch reSerVolNum false t with
     | some [g0, g1, g2] =>
         match qOfDigits g0, qOfDigits g1 with
         | some v, some n => some (.ok (mkSerial (some v) (some n) (some g2) none none))
         | _, _ => some (.error .valueError)
     | _ => none) <|>
    (match reMatch reSerVolWord true t with
     | some [g0, g1, g2] =>
         match qOfDigits g0, qOfDigits g1 with
         | some v, some n => some (.ok (mkSerial (some v) (some n) (some g2) none none))
         | _, _ => some (.error .valueError)
     | _ => none) <|>
    (match reMatch reSerFraction true t with
     | some [g0, g1, g2] =>
         match qOfDigits g0, qOfDigits g1, qOfDigits g2 with
         | some w, some p, some q =>
             if q = 0 then some (.error .zeroDivisionError)
             else some (.ok (mkSerial none none none (some (w + p / q)) none))
         | _, _, _ => some (.error .valueError)
     | _ => none) <|>
    (match reMatch reSerVolSlashNum true t with
     | some [g0, g1] =>
         match qOfDigits g0, qOfDigits g1 with
         | some v, some n => some (.ok (mkSerial (some v) (some n) none none none))
         | _, _ => some (.error .valueError)
     | _ => none) <|>
    (match reMatch reSerRomanSlash true t with
     | some [g0, g1] =>
         match qOfDigits g1 with
         | some n => some (.ok (mkSerial (some ((InterpretRoman g0 : Int) : ℚ)) (some n) none none none))
         | none => some (.error .valueError)
     | _ => none) <|>
    (match reMatch reSerRange true t with
     | some [g0, _g1] =>
         match qOfDigits g0 with
         | some w => some (.ok (mkSerial none none none (some w) none))
         | none => some (.error .valueError)
     | _ => none) <|>
    (match reMatch reSerHash true t with
     | some [g0] =>
         match qOfDigits g0 with
         | some w => some (.ok (mkSerial none none none (some w) none))
         | none => some (.error .valueError)
     | _ => none) <|>
    (match reMatch reSerDecimal true t with
     | some [g0] =>
         match pyDecimal g0 with
         | some n => some (.ok (mkSerial none (some n) none none none))
         | none => some (.error .valueError)
     | _ => none) <|>
    (if !strict && !complete then
      (match reMatch reSerTrailingNum true t with
       | some [g0, g1] =>
           match qOfDigits g0 with
           | some w => some (.ok (mkSerial none none none (some w) (some (pyTrim g1))))
           | none => some (.error .valueError)
       | _ => none) <|>
      (match reMatch reSerTrailingRoman true t with
       | some [g0] =>
           some (.ok (mkSerial none (some ((InterpretRoman g0 : Int) : ℚ)) none none none))
       | _ => none)
    else none)
  match cascade with
  | some r => r
  | none => .ok emptySerial

end FanzineSerial

/-! ## FanzineIssueSpec (source lines 1566-1859) -/

/-- The stored fields of a `FanzineIssueSpec` (`_FS`, `_FD`).  The
constructor always fills both; the fields are optional because the
`FD`/`FS` property setters could store `None`, which the comparison
code guards against. -/
structure FanzineIssueSpec where
  FS : Option FanzineSerial
  FD : Option FanzineDate
  deriving Repr, DecidableEq

namespace FanzineIssueSpec

/-- `FanzineIssueSpec.__init__` (source lines 1568-1590): a supplied
`FS`/`FD` is stored, otherwise one is built from the scalar
arguments. -/
def mkFIS (Vol Num : Option ℚ) (NumSuffix : Option String) (Whole : Option ℚ)
    (WSuffix : Option String) (Year Month : Option Int) (MonthText : Option String)
    (Day : Option Int) (DayText : Option String)
    (FS : Option FanzineSerial) (FD : Option FanzineDate) : FanzineIssueSpec :=
  { FS := some (FS.getD (FanzineSerial.mkSerial Vol Num NumSuffix Whole WSuffix)),
    FD := some (FD.getD (FanzineDate.mkNew Year Month MonthText Day DayText none)) }

/-- `FanzineIssueSpec(Whole=i)` as used by the range expansion. -/
def ofWhole (i : Int) : FanzineIssueSpec :=
  mkFIS none none none (some (i : ℚ)) none none none none none none none none

/-- An entirely empty `FanzineIssueSpec` (what `FanzineIssueSpec()`
gives). -/
def emptyFIS : FanzineIssueSpec :=
  mkFIS none none none none none none none none none none none none

/-- `FanzineIssueSpec.IsEmpty` (source lines 1803-1804); raises
`AttributeError` when a field holds `None`. -/
def IsEmptyFIS (f : FanzineIssueSpec) : Except PyErr Bool :=
  match f.FD, f.FS with
  | some d, some s => .ok (d.IsEmpty && FanzineSerial.IsEmptyS s)
  | _, _ => .error .attributeError

/-- `FanzineIssueSpec.__lt__` (source lines 1635-1642): a `None` other
is never greater; with both dates present (which the constructor
guarantees) the comparison is the date comparison, so the serial branch
runs only when a date field was overwritten with `None` through the
`FD` setter. -/
def ltFIS (a : FanzineIssueSpec) (b? : Option FanzineIssueSpec) : Bool :=
  match b? with
  | none => false
  | some b =>
      match a.FD, b.FD with
      | some da, some db => FanzineDate.ltDate da db
      | _, _ =>
          match a.FS, b.FS with
          | some sa, some sb => FanzineSerial.ltSerial sa (some sb)
          | _, _ => false

/-- The regex of `FanzineIssueSpec.Match` line 1820: digits only. -/
def reAllDigits : List RTok := [.grp [[.many1 pD]]]

/-- `FanzineIssueSpec.Match` (source lines 1815-1843), the IssueSpec
combinator: pure digits become a serial whole number; then a strict,
complete date; then a complete serial with the caller's strictness;
then a serial with the caller's completeness. -/
def MatchFIS (ext : String → Option (Int × Int × Int)) (s : String)
    (strict : Bool := false) (complete : Bool := false) : Except PyErr FanzineIssueSpec :=
  match reMatch reAllDigits true s with
  | some [w] =>
      -- FanzineSerial(Whole=w): the digit string goes through
      -- SetIntProperty/ToNumeric to its numeric value
      .ok (mkFIS none none none none none none none none none none
            (some (FanzineSerial.mkSerial none none none (FanzineSerial.qOfDigits w) none)) none)
  | _ =>
      match FanzineDate.MatchE ext s true true with
      | .error e => .error e
      | .ok fd =>
          if !fd.IsEmpty then
            .ok (mkFIS none none none none none none none none none none none (some fd))
          else
            match FanzineSerial.MatchS s false strict true with
            | .error e => .error e
            | .ok fs =>
                if !FanzineSerial.IsEmptyS fs then
                  .ok (mkFIS none none none none none none none none none none (some fs) none)
                else
                  match FanzineSerial.MatchS s false false complete with
                  | .error e => .error e
                  | .ok fs2 =>
                      if !FanzineSerial.IsEmptyS fs2 then
                        .ok (mkFIS none none none none none none none none none none (some fs2) none)
                      else .ok emptyFIS

/-- The date sort key of an issue spec (source lines 1853-1854),
raising on a `None` date field. -/
def dateKey (f : FanzineIssueSpec) : Except PyErr String :=
  match f.FD with
  | some d => .ok d.FormatDateForSorting
  | none => .error .attributeError

/-- The serial sort key of an issue spec (source lines 1858-1859),
raising on a `None` serial field. -/
def serialKey (f : FanzineIssueSpec) : Except PyErr String :=
  match f.FS with
  | some s => .ok s.FormatSerialForSorting
  | none => .error .attributeError

/-- Comparison of two issue specs by their sort-key strings: the date
keys compared lexicographically, the serial keys breaking the tie. -/
def ltByKey (a b : FanzineIssueSpec) : Except PyErr Bool :=
  match dateKey a, serialKey a, dateKey b, serialKey b with
  | .ok da, .ok sa, .ok db, .ok sb =>
      .ok (strLt da db || (da == db && strLt sa sb))
  | _, _, _, _ => .error .attributeError

end FanzineIssueSpec

/-! ## FanzineIssueSpecList.Match (source lines 2019-2076) -/

/-- The regex of line 2035: exactly four digits. -/
def reFourDigits : List RTok :=
  [.e (.one pD), .e (.one pD), .e (.one pD), .e (.one pD)]

/-- The inclusive integer range `range(x, y+1)` of the expansion loop
(source line 2057). -/
def intRangeIncl (x y : Int) : List Int :=
  (List.range (y + 1 - x).toNat).map (fun i => x + i)

namespace FanzineIssueSpecList

open FanzineIssueSpec

/-- The leading-pair branch of `FanzineIssueSpecList.Match` (source
lines 2030-2042): with at least two tokens left, when token 0 does not
start with a digit, its first word is a month name and token 1 is four
digits, the two tokens are re-joined and matched strictly as one date;
`some fis` means both source lines 2040-2042 ran (the spec is consumed).
Indexing an empty token raises, as `tokens[0][0]` does. -/
def branch1 (ext : String → Option (Int × Int × Int)) (t : String) (ts : List String) :
    Except PyErr (Option FanzineIssueSpec) :=
  match ts with
  | [] => .ok none
  | t1 :: _ =>
      match t.data with
      | [] => .error .indexError
      | c :: _ =>
          if pyIsDigit c then .ok none
          else
            match splitWS t with
            | [] => .error .indexError
            | w :: _ =>
                if (MonthNameToInt w).isSome then
                  if (reMatch reFourDigits true t1).isSome then
                    match MatchFIS ext (t ++ ", " ++ t1) true true with
                    | .error e => .error e
                    | .ok fis =>
                        match IsEmptyFIS fis with
                        | .error e => .error e
                        | .ok true => .ok none
                        | .ok false => .ok (some fis)
                  else .ok none
                else .ok none

/-- The token-consuming loop of `FanzineIssueSpecList.Match` (source
lines 2026-2073), returning the specs contributed by the remaining
tokens.  The leading-pair branch deletes a single token
(`del tokens[0:1]`, line 2041, removes only `tokens[0]` despite its
comment); a token containing a hyphen must be a well-formed two-part
ascending integer range or the whole parse is abandoned with
`return cls()` (lines 2051-2056), an outcome reported as `none` so that
the specs accumulated by earlier tokens are discarded too; otherwise
the combinator runs on the token and an unrecognized token is logged
and skipped. -/
def loopFISL (ext : String → Option (Int × Int × Int)) (strict complete : Bool) :
    List String → Except PyErr (Option (List FanzineIssueSpec))
  | [] => .ok (some [])
  | t :: ts =>
      match branch1 ext t ts with
      | .error e => .error e
      | .ok (some fis) =>
          match loopFISL ext strict complete ts with
          | .error e => .error e
          | .ok none => .ok none
          | .ok (some rest) => .ok (some (fis :: rest))
      | .ok none =>
          if pyContainsChar t '-' then
            match pySplitOn t "-" with
            | [a, b] =>
                match pyInt? a, pyInt? b with
                | some x, some y =>
                    if x ≥ y then .ok none
                    else
                      match loopFISL ext strict complete ts with
                      | .error e => .error e
                      | .ok none => .ok none
                      | .ok (some rest) => .ok (some ((intRangeIncl x y).map ofWhole ++ rest))
                | _, _ => .ok none
            | _ => .ok none
          else
            match MatchFIS ext t strict complete with
            | .error e => .error e
            | .ok fis =>
                match IsEmptyFIS fis with
                | .error e => .error e
                | .ok isEmp =>
                    match loopFISL ext strict complete ts with
                    | .error e => .error e
                    | .ok none => .ok none
                    | .ok (some rest) => .ok (some (if isEmp then rest else fis :: rest))

/-- `FanzineIssueSpecList.Match` (source lines 2019-2076): split the
input on commas, strip each token, and run the consuming loop; an
abandoned parse (`return cls()`) gives the empty list. -/
def MatchFISL (ext : String → Option (Int × Int × Int)) (s : String)
    (strict : Bool := false) (complete : Bool := false) :
    Except PyErr (List FanzineIssueSpec) :=
  match loopFISL ext strict complete ((pySplitOn s ",").map pyTrim) with
  | .error e => .error e
  | .ok none => .ok []
  | .ok (some l) => .ok l

end FanzineIssueSpecList

/-! ## Values used by the claim theorems -/

/-- The external general-purpose date parser instantiated to recognize
nothing (`dateutil` is outside the repository; the cascades under
verification return before consulting it on every input they are
evaluated at). -/
def noExt : String → Option (Int × Int × Int) := fun _ => none

/-- A `FanzineDate` constructed with only a month text, as
`FanzineDate(MonthText="Winter")` does. -/
def winterOnly : FanzineDate := FanzineDate.mkNew none none (some "Winter") none none none

/-- `FanzineIssueSpec(Vol=1, Num=2)`. -/
def specV1N2 : FanzineIssueSpec :=
  FanzineIssueSpec.mkFIS (some 1) (some 2) none none none none none none none none none none

/-- `FanzineIssueSpec(Month=5)`: a date with only the month defined
alongside the default empty serial. -/
def specMon5 : FanzineIssueSpec :=
  FanzineIssueSpec.mkFIS none none none none none none (some 5) none none none none none

/-- `FanzineDate(Year=1967, Month=4, Day=30)`. -/
def dateApr30 : FanzineDate := FanzineDate.mkNew (some 1967) (some 4) none (some 30) none none

/-- `FanzineDate(Year=1967, Month=5, Day=1)`. -/
def dateMay1 : FanzineDate := FanzineDate.mkNew (some 1967) (some 5) none (some 1) none none

/-- `FanzineIssueSpec(FS=FanzineSerial(), FD=FanzineDate(1967, 4, 30))`. -/
def specApr30 : FanzineIssueSpec :=
  FanzineIssueSpec.mkFIS none none none none none none none none none none
    (some FanzineSerial.emptySerial) (some dateApr30)

/-- `FanzineIssueSpec(FS=FanzineSerial(), FD=FanzineDate(1967, 5, 1))`. -/
def specMay1 : FanzineIssueSpec :=
  FanzineIssueSpec.mkFIS none none none none none none none none none none
    (some FanzineSerial.emptySerial) (some dateMay1)

/-! ## Claim theorems -/

/-- C1: evaluation of the date matcher (default flags: not strict,
complete) at the input the claim is about.  The cascade's
abbreviated-month branch (source line 805) matches `"April 31, 1967"`
with groups `April`, `31`, `1967` before the bounded-day branch at
line 883 is reached, so the stored date is April 31 unbounded — not
the bounded year 1967, month 5, day 1 that the claim (and the source's
own comment at lines 881-882) promise. -/
theorem C1_april31_eval (ext : String → Option (Int × Int × Int)) :
    FanzineDate.MatchE ext "April 31, 1967" false true =
      .ok { Year := some 1967, Month := some 4, MonthText := none, Day := some 31,
            DayText := none, MonthDayText := none, LongDates := false } := rfl

/-- Witness for C1: the theorem applied at a concrete external parser,
together with what the claim expected of the day and month fields. -/
theorem C1_april31_eval_witness :
    FanzineDate.MatchE noExt "April 31, 1967" false true =
      .ok { Year := some 1967, Month := some 4, MonthText := none, Day := some 31,
            DayText := none, MonthDayText := none, LongDates := false } :=
  C1_april31_eval noExt

/-- C7 counterexample: the claim sends every numeric value outside
0..32 that is not above 100 to `1900+v`, but the code sends every value
below 33 — negative values included — to `2000+v`:
`YearAs4Digits(-5)` is 1995, not 1895. -/
theorem C7_counterexample :
    YearAs4Digits (.vInt (-5)) = .vInt 1995 ∧ (1995 : Int) ≠ 1900 + (-5) :=
  ⟨rfl, by decide⟩

/-- C7 amended: `year_as_4_digits` passes `None` and non-numeric
strings through unchanged, converts numeric strings, returns numeric
values above 100 unchanged, maps every value below 33 (negative values
included) to `2000+v`, and maps 33..100 to `1900+v`. -/
theorem C7_yearAs4Digits_amended :
    (YearAs4Digits .vNone = .vNone) ∧
    (∀ s, pyInt? s = none → YearAs4Digits (.vStr s) = .vStr s) ∧
    (∀ s n, pyInt? s = some n → YearAs4Digits (.vStr s) = .vInt (YearAs4DigitsInt n)) ∧
    (∀ n : Int, 100 < n → YearAs4Digits (.vInt n) = .vInt n) ∧
    (∀ n : Int, n < 33 → YearAs4Digits (.vInt n) = .vInt (n + 2000)) ∧
    (∀ n : Int, 33 ≤ n → n ≤ 100 → YearAs4Digits (.vInt n) = .vInt (n + 1900)) := by
  refine ⟨rfl, ?_, ?_, ?_, ?_, ?_⟩
  · intro s h; simp [YearAs4Digits, h]
  · intro s n h; simp [YearAs4Digits, h]
  · intro n h; simp [YearAs4Digits, YearAs4DigitsInt, h]
  · intro n h
    simp only [YearAs4Digits, YearAs4DigitsInt]
    rw [if_neg (by omega), if_pos h]
  · intro n h1 h2
    simp only [YearAs4Digits, YearAs4DigitsInt]
    rw [if_neg (by omega), if_neg (by omega)]

/-- Witness for C7: the amended theorem applied to the numeric string
`"67"` (two-digit pivot to 2067... to 1967) and to the plain year
1967. -/
theorem C7_yearAs4Digits_witness :
    YearAs4Digits (.vStr "67") = .vInt 1967 ∧ YearAs4Digits (.vInt 2050) = .vInt 2050 :=
  ⟨C7_yearAs4Digits_amended.2.2.1 "67" 67 rfl,
   C7_yearAs4Digits_amended.2.2.2.1 2050 (by decide)⟩

/-- C8 counterexample: on the non-numeric string `"abc"`,
`ValidFannishYear` does not return the error value `"0"`: the
comparison `1860 < y` with `y` still a string raises `TypeError`. -/
theorem C8_counterexample :
    ValidFannishYear (some "abc") = .error .typeError ∧
    ValidFannishYear (some "abc") ≠ .ok "0" :=
  ⟨rfl, by intro h; rw [(rfl : ValidFannishYear (some "abc") = .error .typeError)] at h; exact Except.noConfusion h⟩

/-- C8 amended: `valid_fannish_year` never raises on `None` or on a
string that parses as an integer, accepting the expansion exactly when
it lies strictly between 1860 and 2100 and returning `"0"` otherwise;
on a non-numeric string it raises a `TypeError` instead of returning
`"0"`. -/
theorem C8_validFannishYear_amended :
    (ValidFannishYear none = .ok "0") ∧
    (∀ s n, pyInt? s = some n →
      ValidFannishYear (some s) =
        .ok (if 1860 < YearAs4DigitsInt n && YearAs4DigitsInt n < 2100
             then intStr (YearAs4DigitsInt n) else "0")) ∧
    (∀ s, pyInt? s = none → ValidFannishYear (some s) = .error .typeError) := by
  refine ⟨rfl, ?_, ?_⟩
  · intro s n h; simp [ValidFannishYear, YearAs4Digits, h]
  · intro s h; simp [ValidFannishYear, YearAs4Digits, h]

/-- Witness for C8: the amended theorem applied at `"1967"` (accepted)
and at `"5000"` (out of range, giving `"0"`). -/
theorem C8_validFannishYear_witness :
    ValidFannishYear (some "1967") = .ok "1967" ∧
    ValidFannishYear (some "5000") = .ok "0" :=
  ⟨C8_validFannishYear_amended.2.1 "1967" 1967 rfl,
   C8_validFannishYear_amended.2.1 "5000" 5000 rfl⟩

/-- C9: a `FanzineDate` built with only `MonthText="Winter"` is not
empty (month text counts toward non-emptiness), yet `__eq__` answers
false against every date — itself included — because it requires a
defined numeric field on each side. -/
theorem C9_eq_not_reflexive :
    FanzineDate.IsEmpty winterOnly = false ∧
    (∀ e : FanzineDate, FanzineDate.beqDate winterOnly e = false) := by
  refine ⟨rfl, fun e => ?_⟩
  unfold FanzineDate.beqDate
  rw [show FanzineDate.IsEmpty winterOnly = false from rfl,
      show winterOnly.Year = none from rfl,
      show winterOnly.Month = none from rfl,
      show winterOnly.Day = none from rfl]
  simp

/-! ### Lexicographic comparison of fixed-width decimal renderings -/

/-- `String.append` acts as list append on the character data. -/
theorem strData_append (a b : String) : (a ++ b).data = a.data ++ b.data := rfl

/-- A shared head leaves the comparison to the tails. -/
theorem lexLt_cons_same (c : Char) (l1 l2 : List Char) :
    lexLt (c :: l1) (c :: l2) = lexLt l1 l2 := by
  simp [lexLt]

/-- Splitting a lexicographic comparison at equal-length prefixes. -/
theorem lexLt_append_eqlen :
    ∀ (p1 p2 t1 t2 : List Char), p1.length = p2.length →
      lexLt (p1 ++ t1) (p2 ++ t2) = (lexLt p1 p2 || (decide (p1 = p2) && lexLt t1 t2)) := by
  intro p1
  induction p1 with
  | nil =>
      intro p2 t1 t2 h
      obtain rfl : p2 = [] := by
        cases p2 with
        | nil => rfl
        | cons b bs => exact absurd h (by simp)
      simp [lexLt]
  | cons a as ih =>
      intro p2 t1 t2 h
      cases p2 with
      | nil => exact absurd h (by simp)
      | cons b bs =>
          by_cases hab : a = b
          · subst hab
            rw [List.cons_append, List.cons_append, lexLt_cons_same, lexLt_cons_same,
              ih bs t1 t2 (by simpa using h),
              show decide (a :: as = a :: bs) = decide (as = bs) from
                decide_eq_decide.mpr (by simp)]
          · rw [List.cons_append, List.cons_append]
            rw [show lexLt (a :: (as ++ t1)) (b :: (bs ++ t2)) = decide (a < b) from by
              simp [lexLt, hab]]
            rw [show lexLt (a :: as) (b :: bs) = decide (a < b) from by
              simp [lexLt, hab]]
            rw [show decide (a :: as = b :: bs) = false from by simp [hab]]
            simp

/-- The width of a padded rendering. -/
theorem padDec_length : ∀ (w n : Nat), (padDec w n).length = w := by
  intro w
  induction w with
  | zero => intro n; rfl
  | succ v ih => intro n; simp [padDec, ih]

/-- Comparison and injectivity of the digit characters. -/
theorem digitChar_facts :
    ∀ x y : Nat, x < 10 → y < 10 →
      (lexLt [digitChar x] [digitChar y] = decide (x < y)) ∧
      (digitChar x = digitChar y ↔ x = y) := by
  intro x y hx hy
  interval_cases x <;> interval_cases y <;> exact ⟨by decide, by decide⟩

/-- On values below `10 ^ w`, the padded renderings compare exactly as
the numbers do, and are equal exactly when the numbers are. -/
theorem padDec_lt_inj :
    ∀ (w a b : Nat), a < 10 ^ w → b < 10 ^ w →
      (lexLt (padDec w a) (padDec w b) = decide (a < b)) ∧
      (padDec w a = padDec w b ↔ a = b) := by
  intro w
  induction w with
  | zero =>
      intro a b ha hb
      obtain rfl : a = 0 := by simpa using Nat.lt_one_iff.mp ha
      obtain rfl : b = 0 := by simpa using Nat.lt_one_iff.mp hb
      exact ⟨rfl, by simp⟩
  | succ w ih =>
      intro a b ha hb
      have hpow : 10 ^ (w + 1) = 10 ^ w * 10 := pow_succ 10 w
      have ha10 : a / 10 < 10 ^ w := by
        rw [Nat.div_lt_iff_lt_mul (by omega)]
        omega
      have hb10 : b / 10 < 10 ^ w := by
        rw [Nat.div_lt_iff_lt_mul (by omega)]
        omega
      have hih := ih (a / 10) (b / 10) ha10 hb10
      have hd := digitChar_facts (a % 10) (b % 10) (by omega) (by omega)
      constructor
      · show lexLt (padDec w (a / 10) ++ [digitChar (a % 10)])
              (padDec w (b / 10) ++ [digitChar (b % 10)]) = decide (a < b)
        rw [lexLt_append_eqlen _ _ _ _ (by rw [padDec_length, padDec_length])]
        rw [hih.1, hd.1]
        rw [show decide (padDec w (a / 10) = padDec w (b / 10)) = decide (a / 10 = b / 10) from
          decide_eq_decide.mpr hih.2]
        rw [Bool.eq_iff_iff]
        simp only [Bool.or_eq_true, Bool.and_eq_true, decide_eq_true_eq]
        omega
      · show padDec w (a / 10) ++ [digitChar (a % 10)] =
              padDec w (b / 10) ++ [digitChar (b % 10)] ↔ a = b
        constructor
        · intro h
          obtain ⟨h1, h2⟩ :=
            List.append_inj h (by rw [padDec_length, padDec_length])
          have e1 : a / 10 = b / 10 := hih.2.mp h1
          have e2 : a % 10 = b % 10 := hd.2.mp (by simpa using h2)
          omega
        · intro h; rw [h]

/-- `natDecF` agrees with the zero-padded rendering on values of the
exact width, given enough fuel. -/
theorem natDecF_eq_padDec :
    ∀ (w fuel n : Nat), 10 ^ w ≤ n → n < 10 ^ (w + 1) → w ≤ fuel →
      natDecF fuel n = padDec (w + 1) n := by
  intro w
  induction w with
  | zero =>
      intro fuel n h1 h2 _
      have hn : n < 10 := by simpa using h2
      have hmod : n % 10 = n := Nat.mod_eq_of_lt hn
      have hdiv : n / 10 = 0 := Nat.div_eq_of_lt hn
      cases fuel with
      | zero => simp [natDecF, padDec, hmod, hdiv]
      | succ f => simp [natDecF, padDec, if_pos hn, hmod, hdiv]
  | succ w ih =>
      intro fuel n h1 h2 hf
      have hpow1 : 10 ^ (w + 1) = 10 ^ w * 10 := pow_succ 10 w
      have hpow2 : 10 ^ (w + 2) = 10 ^ (w + 1) * 10 := pow_succ 10 (w + 1)
      obtain ⟨f, rfl⟩ : ∃ f, fuel = f + 1 := ⟨fuel - 1, by omega⟩
      have hge10 : ¬ n < 10 := by
        have : (10 : Nat) ≤ 10 ^ (w + 1) := by
          calc (10 : Nat) = 10 ^ 1 := (pow_one 10).symm
          _ ≤ 10 ^ (w + 1) := Nat.pow_le_pow_right (by omega) (by omega)
        omega
      have hd1 : 10 ^ w ≤ n / 10 := by
        rw [Nat.le_div_iff_mul_le (by omega)]
        omega
      have hd2 : n / 10 < 10 ^ (w + 1) := by
        rw [Nat.div_lt_iff_lt_mul (by omega)]
        omega
      show natDecF (f + 1) n = padDec (w + 2) n
      rw [show natDecF (f + 1) n = natDecF f (n / 10) ++ [digitChar (n % 10)] from by
        simp [natDecF, if_neg hge10]]
      rw [show padDec (w + 2) n = padDec (w + 1) (n / 10) ++ [digitChar (n % 10)] from rfl]
      rw [ih f (n / 10) hd1 hd2 (by omega)]

/-- Python `str` of a four-digit number is its zero-padded width-four
rendering. -/
theorem natDec_eq_padDec4 (n : Nat) (h1 : 1000 ≤ n) (h2 : n ≤ 9999) :
    natDec n = padDec 4 n :=
  natDecF_eq_padDec 3 n n (by omega) (by omega) (by omega)

/-- Python `str` of a value below ten is the single digit. -/
theorem natDec_lt10 (k : Nat) (h : k < 10) : natDec k = [digitChar k] := by
  cases k with
  | zero => rfl
  | succ j =>
      rw [show natDec (j + 1) = natDecF (j + 1) (j + 1) from rfl,
        natDecF_eq_padDec 0 (j + 1) (j + 1) (by omega) (by simpa using h) (by omega)]
      show padDec 0 ((j + 1) / 10) ++ [digitChar ((j + 1) % 10)] = [digitChar (j + 1)]
      rw [Nat.mod_eq_of_lt h]
      rfl

/-- Python `str` of a two-digit number is its zero-padded width-two
rendering. -/
theorem natDec_two (k : Nat) (h1 : 10 ≤ k) (h2 : k < 100) : natDec k = padDec 2 k :=
  natDecF_eq_padDec 1 k k (by omega) (by omega) (by omega)

/-- `format(n, '02d')` of a value in 0..99 is its zero-padded
width-two rendering. -/
theorem pyFormat02_eq_padDec (n : Int) (h1 : 0 ≤ n) (h2 : n < 100) :
    pyFormat02 n = String.mk (padDec 2 n.natAbs) := by
  have hneg : ¬ n < 0 := by omega
  have hk : n.natAbs < 100 := by omega
  simp only [pyFormat02, intStr, if_neg hneg]
  by_cases hsmall : n.natAbs < 10
  · rw [natDec_lt10 _ hsmall]
    rw [if_pos (show (String.mk [digitChar n.natAbs]).length < 2 by
      rw [show (String.mk [digitChar n.natAbs]).length = 1 from rfl]; omega)]
    show String.mk ('0' :: [digitChar n.natAbs]) = String.mk (padDec 2 n.natAbs)
    rw [show padDec 2 n.natAbs = padDec 1 (n.natAbs / 10) ++ [digitChar (n.natAbs % 10)] from rfl,
      Nat.div_eq_of_lt hsmall, Nat.mod_eq_of_lt hsmall]
    rfl
  · rw [natDec_two _ (by omega) hk]
    rw [if_neg (show ¬ (String.mk (padDec 2 n.natAbs)).length < 2 by
      rw [show (String.mk (padDec 2 n.natAbs)).length = (padDec 2 n.natAbs).length from rfl,
        padDec_length]
      omega)]

/-- The character data of the date sort key of a fully defined date
with a four-digit year: the padded renderings joined by the literal
separators. -/
theorem formatDate_data (fd : FanzineDate) (y m d : Int)
    (hY : fd.Year = some y) (hM : fd.Month = some m) (hD : fd.Day = some d)
    (hy1 : 1000 ≤ y) (hy2 : y ≤ 9999) (hm1 : 0 ≤ m) (hm2 : m < 100)
    (hd1 : 0 ≤ d) (hd2 : d < 100) :
    (FanzineDate.FormatDateForSorting fd).data =
      padDec 4 y.natAbs ++ '-' ::
        (padDec 2 m.natAbs ++ '_' :: padDec 2 d.natAbs) := by
  have hYN : YearName (some y) = String.mk (padDec 4 y.natAbs) := by
    rw [show YearName (some y) = (if y = 0 then "" else intStr (YearAs4DigitsInt y)) from rfl,
      if_neg (show ¬ y = 0 by omega),
      show YearAs4DigitsInt y = y from by rw [YearAs4DigitsInt]; rw [if_pos (show y > 100 by omega)],
      intStr, if_neg (show ¬ y < 0 by omega),
      natDec_eq_padDec4 y.natAbs (by omega) (by omega)]
  have hmf : pyFormat02 m = String.mk (padDec 2 m.natAbs) := pyFormat02_eq_padDec m hm1 hm2
  have hdf : pyFormat02 d = String.mk (padDec 2 d.natAbs) := pyFormat02_eq_padDec d hd1 hd2
  have key : FanzineDate.FormatDateForSorting fd =
      String.mk (padDec 4 y.natAbs) ++ "-" ++ String.mk (padDec 2 m.natAbs) ++ "_" ++
        String.mk (padDec 2 d.natAbs) := by
    unfold FanzineDate.FormatDateForSorting
    rw [hY, hM, hD]
    show YearName (some y) ++ "-" ++ pyFormat02 m ++ "_" ++ pyFormat02 d = _
    rw [hYN, hmf, hdf]
  rw [key]
  show ((((padDec 4 y.natAbs ++ ['-']) ++ padDec 2 m.natAbs) ++ ['_']) ++
      padDec 2 d.natAbs : List Char) = _
  simp [List.append_assoc]

/-- The lexicographic comparison of two such sort keys is exactly the
lexicographic comparison of the numeric triples. -/
theorem keyLt (y1 m1 d1 y2 m2 d2 : Nat) (hy1 : y1 < 10000) (hy2 : y2 < 10000)
    (hm1 : m1 < 100) (hm2 : m2 < 100) (hd1 : d1 < 100) (hd2 : d2 < 100) :
    lexLt
      (padDec 4 y1 ++ '-' :: (padDec 2 m1 ++ '_' :: padDec 2 d1))
      (padDec 4 y2 ++ '-' :: (padDec 2 m2 ++ '_' :: padDec 2 d2)) =
      (decide (y1 < y2) || (decide (y1 = y2) &&
        (decide (m1 < m2) || (decide (m1 = m2) && decide (d1 < d2))))) := by
  have hy := padDec_lt_inj 4 y1 y2 (by norm_num; omega) (by norm_num; omega)
  have hm := padDec_lt_inj 2 m1 m2 (by norm_num; omega) (by norm_num; omega)
  have hd := padDec_lt_inj 2 d1 d2 (by norm_num; omega) (by norm_num; omega)
  rw [lexLt_append_eqlen _ _ _ _ (by rw [padDec_length, padDec_length]),
    lexLt_cons_same,
    lexLt_append_eqlen _ _ _ _ (by rw [padDec_length, padDec_length]),
    lexLt_cons_same,
    hy.1, hm.1, hd.1,
    show decide (padDec 4 y1 = padDec 4 y2) = decide (y1 = y2) from
      decide_eq_decide.mpr hy.2,
    show decide (padDec 2 m1 = padDec 2 m2) = decide (m1 = m2) from
      decide_eq_decide.mpr hm.2]

/-! ### Unfolding and invariant lemmas for the `BoundDay` loops -/

/-- One wrap-around step of the negative-day loop. -/
theorem boundDayNeg_step_wrap (d m v L : Int) (hd : d < 1) (hm1 : m - 1 < 1)
    (hL : MonthLength 12 = some L) :
    boundDayNeg d m (some v) = boundDayNeg (d + L) 12 (some (v - 1)) := by
  rw [boundDayNeg.eq_def, dif_pos hd]
  simp only [if_pos hm1, decYear]
  split
  · rename_i heq
    rw [if_pos hm1, hL] at heq
    exact Option.noConfusion heq
  · rename_i L2 heq
    rw [if_pos hm1, hL] at heq
    obtain rfl : L = L2 := Option.some_injective _ heq
    rfl

/-- One ordinary step of the negative-day loop. -/
theorem boundDayNeg_step (d m v L : Int) (hd : d < 1) (hm1 : ¬(m - 1 < 1))
    (hL : MonthLength (m - 1) = some L) :
    boundDayNeg d m (some v) = boundDayNeg (d + L) (m - 1) (some v) := by
  rw [boundDayNeg.eq_def, dif_pos hd]
  simp only [if_neg hm1]
  split
  · rename_i heq
    rw [if_neg hm1, hL] at heq
    exact Option.noConfusion heq
  · rename_i L2 heq
    rw [if_neg hm1, hL] at heq
    obtain rfl : L = L2 := Option.some_injective _ heq
    rfl

/-- Exit of the negative-day loop. -/
theorem boundDayNeg_exit (d m : Int) (y : Option Int) (hd : ¬ d < 1) :
    boundDayNeg d m y = .ok (d, m, y) := by
  rw [boundDayNeg.eq_def, dif_neg hd]

/-- One wrap-around step of the overflow loop. -/
theorem boundDayPos_step_wrap (d m v L : Int) (hL : MonthLength m = some L)
    (hd : d > L) (hm : m + 1 > 12) :
    boundDayPos d m (some v) = boundDayPos (d - L) 1 (some (v + 1)) := by
  rw [boundDayPos.eq_def]
  split
  · rename_i heq
    rw [hL] at heq
    exact Option.noConfusion heq
  · rename_i L2 heq
    rw [hL] at heq
    obtain rfl : L = L2 := Option.some_injective _ heq
    rw [dif_pos hd]
    simp only [if_pos hm, incYear]

/-- One ordinary step of the overflow loop. -/
theorem boundDayPos_step (d m v L : Int) (hL : MonthLength m = some L)
    (hd : d > L) (hm : ¬(m + 1 > 12)) :
    boundDayPos d m (some v) = boundDayPos (d - L) (m + 1) (some v) := by
  rw [boundDayPos.eq_def]
  split
  · rename_i heq
    rw [hL] at heq
    exact Option.noConfusion heq
  · rename_i L2 heq
    rw [hL] at heq
    obtain rfl : L = L2 := Option.some_injective _ heq
    rw [dif_pos hd]
    simp only [if_neg hm]

/-- Exit of the overflow loop. -/
theorem boundDayPos_exit (d m : Int) (y : Option Int) (L : Int)
    (hL : MonthLength m = some L) (hd : ¬ d > L) :
    boundDayPos d m y = .ok (d, m, y) := by
  rw [boundDayPos.eq_def]
  split
  · rename_i heq
    rw [hL] at heq
    exact Option.noConfusion heq
  · rename_i L2 heq
    rw [hL] at heq
    obtain rfl : L = L2 := Option.some_injective _ heq
    rw [dif_neg hd]

/-- Invariant of the negative-day loop: from a month in 1..12 and a
day below one it terminates successfully with a day inside the returned
month, the month still in 1..12.  `N` bounds the iteration count. -/
theorem boundDayNeg_ok (N : Nat) :
    ∀ d m v : Int, (1 - d).toNat ≤ N → 1 ≤ m → m ≤ 12 → d < 1 →
    ∃ d2 m2 y2 : Int, boundDayNeg d m (some v) = .ok (d2, m2, some y2) ∧
      1 ≤ m2 ∧ m2 ≤ 12 ∧ 1 ≤ d2 ∧ ∃ L2, MonthLength m2 = some L2 ∧ d2 ≤ L2 := by
  induction N with
  | zero => intro d m v hN h1 h2 hd; omega
  | succ n IH =>
    intro d m v hN h1 h2 hd
    by_cases hm1 : m - 1 < 1
    · obtain ⟨L, hL⟩ := monthLength_isSome 12 (by omega) (by omega)
      have hge := monthLength_ge 12 L hL
      rw [boundDayNeg_step_wrap d m v L hd hm1 hL]
      by_cases hdl : d + L < 1
      · exact IH (d + L) 12 (v - 1) (by omega) (by omega) (by omega) hdl
      · rw [boundDayNeg_exit _ _ _ hdl]
        exact ⟨d + L, 12, v - 1, rfl, by omega, by omega, by omega, L, hL, by omega⟩
    · obtain ⟨L, hL⟩ := monthLength_isSome (m - 1) (by omega) (by omega)
      have hge := monthLength_ge (m - 1) L hL
      rw [boundDayNeg_step d m v L hd hm1 hL]
      by_cases hdl : d + L < 1
      · exact IH (d + L) (m - 1) v (by omega) (by omega) (by omega) hdl
      · rw [boundDayNeg_exit _ _ _ hdl]
        exact ⟨d + L, m - 1, v, rfl, by omega, by omega, by omega, L, hL, by omega⟩

/-- Invariant of the overflow loop: from a month in 1..12 and a day of
at least one it terminates successfully with a day inside the returned
month, the month still in 1..12. -/
theorem boundDayPos_ok (N : Nat) :
    ∀ d m v : Int, d.toNat ≤ N → 1 ≤ m → m ≤ 12 → 1 ≤ d →
    ∃ d2 m2 y2 : Int, boundDayPos d m (some v) = .ok (d2, m2, some y2) ∧
      1 ≤ m2 ∧ m2 ≤ 12 ∧ 1 ≤ d2 ∧ ∃ L2, MonthLength m2 = some L2 ∧ d2 ≤ L2 := by
  induction N with
  | zero => intro d m v hN h1 h2 hd; omega
  | succ n IH =>
    intro d m v hN h1 h2 hd
    obtain ⟨L, hL⟩ := monthLength_isSome m h1 h2
    have hge := monthLength_ge m L hL
    by_cases hdL : d > L
    · by_cases hm : m + 1 > 12
      · rw [boundDayPos_step_wrap d m v L hL hdL hm]
        exact IH (d - L) 1 (v + 1) (by omega) (by omega) (by omega) (by omega)
      · rw [boundDayPos_step d m v L hL hdL hm]
        exact IH (d - L) (m + 1) v (by omega) (by omega) (by omega) (by omega)
    · rw [boundDayPos_exit d m _ L hL hdL]
      exact ⟨d, m, v, rfl, h1, h2, hd, L, hL, by omega⟩

/-- C6: for a day in -10..60 and a month in 1..12, `BoundDay` either
rejects or returns a triple whose month is in 1..12 and whose day lies
between 1 and the returned month's length; and a day below -10 or above
60 is rejected immediately, returned as the all-`None` rejection
triple. -/
theorem C6_boundDay_bounds :
    (∀ d m y : Int, -10 ≤ d → d ≤ 60 → 1 ≤ m → m ≤ 12 →
      BoundDay (some d) (some m) (some y) = .ok (none, none, none) ∨
      (∃ d2 m2 y2 : Int, BoundDay (some d) (some m) (some y) = .ok (some d2, some m2, some y2) ∧
        1 ≤ m2 ∧ m2 ≤ 12 ∧ 1 ≤ d2 ∧ ∃ L2, MonthLength m2 = some L2 ∧ d2 ≤ L2)) ∧
    (∀ d m y : Int, (d < -10 ∨ 60 < d) →
      BoundDay (some d) (some m) (some y) = .ok (none, none, none)) := by
  constructor
  · intro d m y hd1 hd2 hm1 hm2
    right
    simp only [BoundDay]
    rw [if_neg (by omega : ¬(d < -10 ∨ d > 60))]
    by_cases h1d : 1 ≤ d
    · rw [if_pos h1d]
      obtain ⟨L, hL⟩ := monthLength_isSome m hm1 hm2
      obtain ⟨d2, m2, y2, heq, p1, p2, p3, p4⟩ :=
        boundDayPos_ok d.toNat d m y (by omega) hm1 hm2 h1d
      split
      · rename_i heq2
        rw [hL] at heq2
        exact Option.noConfusion heq2
      · rename_i L2 heq2
        rw [hL] at heq2
        obtain rfl : L = L2 := Option.some_injective _ heq2
        by_cases hdl : d ≤ L
        · rw [if_pos hdl]
          exact ⟨d, m, y, rfl, hm1, hm2, h1d, L, hL, hdl⟩
        · rw [if_neg hdl, heq]
          exact ⟨d2, m2, y2, rfl, p1, p2, p3, p4⟩
    · rw [if_neg h1d]
      obtain ⟨d2, m2, y2, heq, p1, p2, p3, p4⟩ :=
        boundDayNeg_ok (1 - d).toNat d m y (by omega) hm1 hm2 (by omega)
      rw [heq]
      exact ⟨d2, m2, y2, rfl, p1, p2, p3, p4⟩
  · intro d m y h
    simp only [BoundDay]
    rw [if_pos (by omega : d < -10 ∨ d > 60)]

/-- Witness for C6: the bounds clause applied at the out-of-range
April day 31 of 1967, and the immediate-rejection clause applied at
day 61. -/
theorem C6_boundDay_witness :
    (BoundDay (some 31) (some 4) (some 1967) = .ok (none, none, none) ∨
      (∃ d2 m2 y2 : Int,
        BoundDay (some 31) (some 4) (some 1967) = .ok (some d2, some m2, some y2) ∧
        1 ≤ m2 ∧ m2 ≤ 12 ∧ 1 ≤ d2 ∧ ∃ L2, MonthLength m2 = some L2 ∧ d2 ≤ L2)) ∧
    BoundDay (some 61) (some 1) (some 2000) = .ok (none, none, none) :=
  ⟨C6_boundDay_bounds.1 31 4 1967 (by norm_num) (by norm_num) (by norm_num) (by norm_num),
   C6_boundDay_bounds.2 61 1 2000 (by norm_num)⟩

/-- C4 counterexample: two all-undefined dates tie on every field, yet
`a < b` holds (and by symmetry so does `b < a`), where the claim says
neither may hold when all three comparisons tie. -/
theorem C4_counterexample :
    FanzineDate.ltDate FanzineDate.emptyDate FanzineDate.emptyDate = true := rfl

/-- C4 amended: `<` compares year, then month, then day; on dates with
every field defined it is exactly the lexicographic order on the
triples; at each stage an undefined field on the left makes `a < b`
true no matter what the right holds (so two dates undefined at the
deciding stage are each less than the other, rather than equal), and an
undefined field on the right alone makes it false. -/
theorem C4_ltDate_amended :
    (∀ a b : FanzineDate, ∀ ya yb ma mb da db : Int,
      a.Year = some ya → b.Year = some yb → a.Month = some ma → b.Month = some mb →
      a.Day = some da → b.Day = some db →
      (FanzineDate.ltDate a b = true ↔
        (ya < yb ∨ (ya = yb ∧ (ma < mb ∨ (ma = mb ∧ da < db)))))) ∧
    (∀ a b : FanzineDate, a.Year = none → FanzineDate.ltDate a b = true) ∧
    (∀ a b : FanzineDate, ∀ ya, a.Year = some ya → b.Year = none →
      FanzineDate.ltDate a b = false) ∧
    (∀ a b : FanzineDate, ∀ y, a.Year = some y → b.Year = some y → a.Month = none →
      FanzineDate.ltDate a b = true) ∧
    (∀ a b : FanzineDate, ∀ y ma, a.Year = some y → b.Year = some y →
      a.Month = some ma → b.Month = none → FanzineDate.ltDate a b = false) ∧
    (∀ a b : FanzineDate, ∀ y m, a.Year = some y → b.Year = some y →
      a.Month = some m → b.Month = some m → a.Day = none →
      FanzineDate.ltDate a b = true) ∧
    (∀ a b : FanzineDate, ∀ y m da, a.Year = some y → b.Year = some y →
      a.Month = some m → b.Month = some m → a.Day = some da → b.Day = none →
      FanzineDate.ltDate a b = false) := by
  refine ⟨?_, ?_, ?_, ?_, ?_, ?_, ?_⟩
  · intro a b ya yb ma mb da db hy1 hy2 hm1 hm2 hd1 hd2
    unfold FanzineDate.ltDate
    rw [hy1, hy2, hm1, hm2, hd1, hd2]
    by_cases h1 : ya = yb <;> by_cases h2 : ma = mb <;> by_cases h3 : da = db <;>
      simp [h1, h2, h3] <;> omega
  · intro a b h; unfold FanzineDate.ltDate; rw [h]
  · intro a b ya h1 h2; unfold FanzineDate.ltDate; rw [h1, h2]
  · intro a b y h1 h2 h3; unfold FanzineDate.ltDate; rw [h1, h2, h3]; simp
  · intro a b y ma h1 h2 h3 h4; unfold FanzineDate.ltDate; rw [h1, h2, h3, h4]; simp
  · intro a b y m h1 h2 h3 h4 h5
    unfold FanzineDate.ltDate; rw [h1, h2, h3, h4, h5]; simp
  · intro a b y m da h1 h2 h3 h4 h5 h6
    unfold FanzineDate.ltDate; rw [h1, h2, h3, h4, h5, h6]; simp

/-- Witness for C4: the fully-defined clause of the amended theorem
applied to April 30, 1967 against May 1, 1967. -/
theorem C4_ltDate_witness :
    FanzineDate.ltDate (FanzineDate.mkNew (some 1967) (some 4) none (some 30) none none)
      (FanzineDate.mkNew (some 1967) (some 5) none (some 1) none none) = true :=
  (C4_ltDate_amended.1 _ _ 1967 1967 4 5 30 1 rfl rfl rfl rfl rfl rfl).mpr
    (by omega)

/-- C5 counterexample: two serials with no whole number, the same
volume and defined, different issue numbers (2 and 5): the claim says
the one with the smaller number is less, but `__lt__` compares defined
numbers of equal volumes no further and answers false. -/
theorem C5_counterexample :
    FanzineSerial.ltSerial (FanzineSerial.mkSerial (some 1) (some 2) none none none)
      (some (FanzineSerial.mkSerial (some 1) (some 5) none none none)) = false ∧
    ((2 : ℚ) < 5) :=
  ⟨rfl, by norm_num⟩

/-- C5 amended: with both wholes defined, unequal wholes compare
numerically and equal wholes fall to the string comparison of the
stored suffixes (the empty suffix of an unsuffixed serial ranks below
any letter); with a whole missing on either side, unequal defined
volumes compare numerically, and with equal volumes only the
definedness of `num` decides: an undefined left `num` against a defined
right one gives true, while a defined left `num` gives false no matter
what the right holds — two defined nums are never compared — and a
missing volume on either side gives false. -/
theorem C5_ltSerial_amended :
    (∀ s t : FanzineSerial, ∀ wa wb : ℚ, s.Whole = some wa → t.Whole = some wb →
      wa ≠ wb → FanzineSerial.ltSerial s (some t) = decide (wa < wb)) ∧
    (∀ s t : FanzineSerial, ∀ wa : ℚ, ∀ sa sb : String, s.Whole = some wa →
      t.Whole = some wa → s.WSuffix = some sa → t.WSuffix = some sb →
      FanzineSerial.ltSerial s (some t) = strLt sa sb) ∧
    (∀ s t : FanzineSerial, ∀ va vb : ℚ, (s.Whole = none ∨ t.Whole = none) →
      s.Vol = some va → t.Vol = some vb → va ≠ vb →
      FanzineSerial.ltSerial s (some t) = decide (va < vb)) ∧
    (∀ s t : FanzineSerial, ∀ va : ℚ, (s.Whole = none ∨ t.Whole = none) →
      s.Vol = some va → t.Vol = some va → s.Num = none → t.Num.isSome →
      FanzineSerial.ltSerial s (some t) = true) ∧
    (∀ s t : FanzineSerial, ∀ va : ℚ, (s.Whole = none ∨ t.Whole = none) →
      s.Vol = some va → t.Vol = some va → s.Num = none → t.Num = none →
      FanzineSerial.ltSerial s (some t) = false) ∧
    (∀ s t : FanzineSerial, ∀ va na, (s.Whole = none ∨ t.Whole = none) →
      s.Vol = some va → t.Vol = some va → s.Num = some na →
      FanzineSerial.ltSerial s (some t) = false) ∧
    (∀ s t : FanzineSerial, (s.Whole = none ∨ t.Whole = none) →
      (s.Vol = none ∨ t.Vol = none) → FanzineSerial.ltSerial s (some t) = false) := by
  have hwb : ∀ s t : FanzineSerial, (s.Whole = none ∨ t.Whole = none) →
      (match s.Whole, t.Whole with
       | some wa, some wb =>
           if wa < wb then some true
           else if wa > wb then some false
           else if s.WSuffix.isSome || t.WSuffix.isSome then
             match t.WSuffix with
             | none => some false
             | some sb =>
                 match s.WSuffix with
                 | none => some true
                 | some sa => some (strLt sa sb)
           else none
       | _, _ => none) = (none : Option Bool) := by
    intro s t h
    rcases h with h | h <;> rw [h] <;> cases s.Whole <;> cases t.Whole <;> rfl
  refine ⟨?_, ?_, ?_, ?_, ?_, ?_, ?_⟩
  · intro s t wa wb h1 h2 hne
    simp only [FanzineSerial.ltSerial]
    rw [h1, h2]
    rcases lt_trichotomy wa wb with h | h | h
    · simp [h]
    · exact absurd h hne
    · simp [h, not_lt_of_lt h, decide_eq_false (not_lt_of_lt h)]
  · intro s t wa sa sb h1 h2 h3 h4
    simp only [FanzineSerial.ltSerial]
    rw [h1, h2, h3, h4]
    simp
  · intro s t va vb hw h1 h2 hne
    simp only [FanzineSerial.ltSerial]
    rw [hwb s t hw, h1, h2]
    rcases lt_trichotomy va vb with h | h | h
    · simp [h]
    · exact absurd h hne
    · simp [h, not_lt_of_lt h, decide_eq_false (not_lt_of_lt h)]
  · intro s t va hw h1 h2 h3 h4
    simp only [FanzineSerial.ltSerial]
    rw [hwb s t hw, h1, h2, h3]
    rcases Option.isSome_iff_exists.mp h4 with ⟨nb, hnb⟩
    rw [hnb]
    simp
  · intro s t va hw h1 h2 h3 h4
    simp only [FanzineSerial.ltSerial]
    rw [hwb s t hw, h1, h2, h3, h4]
    simp
  · intro s t va na hw h1 h2 h3
    simp only [FanzineSerial.ltSerial]
    rw [hwb s t hw, h1, h2, h3]
    cases t.Num <;> simp
  · intro s t hw hv
    simp only [FanzineSerial.ltSerial]
    rw [hwb s t hw]
    rcases hv with h | h <;> rw [h] <;> cases s.Vol <;> cases t.Vol <;> rfl

/-- Witness for C5: the whole-number clause of the amended theorem
applied to wholes 3 and 5. -/
theorem C5_ltSerial_witness :
    FanzineSerial.ltSerial (FanzineSerial.mkSerial none none none (some 3) none)
      (some (FanzineSerial.mkSerial none none none (some 5) none)) = decide ((3 : ℚ) < 5) :=
  C5_ltSerial_amended.1 _ _ 3 5 rfl rfl (by norm_num)

/-- C2 counterexample: in `"1, 2-2"` the first token parses to a
non-empty whole-number IssueSpec, yet one malformed range token makes
the whole list parse return the empty list — the already-parsed spec
from the good token is not in the result. -/
theorem C2_counterexample :
    FanzineIssueSpecList.MatchFISL noExt "1, 2-2" false false = .ok [] ∧
    (match FanzineIssueSpec.MatchFIS noExt "1" false false with
     | .ok f => FanzineIssueSpec.IsEmptyFIS f
     | .error e => .error e) = .ok false :=
  ⟨rfl, rfl⟩

/-- C2 amended: a single token that the leading-pair branch declines,
that contains no hyphen and that the IssueSpec combinator cannot parse
is logged and dropped, and the loop continues on the remaining tokens
with the same result; but a hyphenated token whose halves are not an
ascending integer pair abandons the whole parse — `"2-2"` anywhere in
the token list makes the result the empty list, whatever the other
tokens contributed. -/
theorem C2_listMatch_amended :
    (∀ (ext : String → Option (Int × Int × Int)) (strict complete : Bool)
       (t : String) (ts : List String) (fis : FanzineIssueSpec),
      FanzineIssueSpecList.branch1 ext t ts = .ok none →
      pyContainsChar t '-' = false →
      FanzineIssueSpec.MatchFIS ext t strict complete = .ok fis →
      FanzineIssueSpec.IsEmptyFIS fis = .ok true →
      FanzineIssueSpecList.loopFISL ext strict complete (t :: ts) =
        FanzineIssueSpecList.loopFISL ext strict complete ts) ∧
    (∀ (ext : String → Option (Int × Int × Int)) (strict complete : Bool)
       (ts : List String),
      FanzineIssueSpecList.loopFISL ext strict complete ("2-2" :: ts) = .ok none) := by
  constructor
  · intro ext strict complete t ts fis h1 h2 h3 h4
    simp only [FanzineIssueSpecList.loopFISL, h1, h2, h3, h4, Bool.false_eq_true,
      if_false, if_true]
    cases h : FanzineIssueSpecList.loopFISL ext strict complete ts with
    | error e => rfl
    | ok o => cases o <;> rfl
  · intro ext strict complete ts
    unfold FanzineIssueSpecList.loopFISL
    have hb : FanzineIssueSpecList.branch1 ext "2-2" ts = .ok none := by
      cases ts with
      | nil => rfl
      | cons t1 rest => rfl
    rw [hb]
    rfl

/-- Witness for C2: the skip clause applied at the unrecognized token
`"xyzzy"` in front of the token list `["5"]`. -/
theorem C2_listMatch_witness :
    FanzineIssueSpecList.loopFISL noExt false false ["xyzzy", "5"] =
      FanzineIssueSpecList.loopFISL noExt false false ["5"] :=
  C2_listMatch_amended.1 noExt false false "xyzzy" ["5"] FanzineIssueSpec.emptyFIS
    rfl rfl rfl rfl

/-- C10: the serial constructor and the two suffix setters always
leave `NumSuffix` and `WSuffix` holding strings: the constructor stores
a string for any argument, each setter stores a string for any
argument, and `None` is stored as the empty string. -/
theorem C10_suffix_invariant :
    (∀ Vol Num NumSuffix Whole WSuffix, ∃ a b,
      (FanzineSerial.mkSerial Vol Num NumSuffix Whole WSuffix).NumSuffix = some a ∧
      (FanzineSerial.mkSerial Vol Num NumSuffix Whole WSuffix).WSuffix = some b) ∧
    (∀ s v, ∃ a, (FanzineSerial.setNumSuffix s v).NumSuffix = some a) ∧
    (∀ s v, ∃ a, (FanzineSerial.setWSuffix s v).WSuffix = some a) ∧
    (∀ s, (FanzineSerial.setNumSuffix s none).NumSuffix = some "") ∧
    (∀ s, (FanzineSerial.setWSuffix s none).WSuffix = some "") := by
  refine ⟨?_, ?_, ?_, fun s => rfl, fun s => rfl⟩
  · intro Vol Num NumSuffix Whole WSuffix
    cases NumSuffix <;> cases WSuffix <;> exact ⟨_, _, rfl, rfl⟩
  · intro s v; cases v <;> exact ⟨_, rfl⟩
  · intro s v; cases v <;> exact ⟨_, rfl⟩

/-- C3 counterexample: sorting by sort key cannot agree with sorting by
`<` because `<` is not even irreflexive where the key order is: an
issue spec whose date has a month but no year satisfies `x < x` (its
date key renders the missing year as `0000`, so the keys tie and the
key order correctly answers false). -/
theorem C3_counterexample :
    FanzineIssueSpec.ltFIS specMon5 (some specMon5) = true ∧
      FanzineIssueSpec.ltByKey specMon5 specMon5 = .ok false := ⟨rfl, rfl⟩

/-- C3 amended: on issue specs built from fully defined dates with
four-digit years and in-range months and days, together with the
default empty serial, the sort-key comparison agrees exactly with `<`:
sorting by the key strings then orders such a list exactly as `<`
does.  (Outside this class the two orders genuinely diverge: a date
field left `None` makes `<` answer true against anything, including the
spec itself, while the key order stays a strict order.) -/
theorem C3_sortKey_amended (a b : FanzineIssueSpec) (fa fb : FanzineDate)
    (ya ma da yb mb db : Int)
    (hFa : a.FD = some fa) (hFb : b.FD = some fb)
    (hSa : a.FS = some FanzineSerial.emptySerial)
    (hSb : b.FS = some FanzineSerial.emptySerial)
    (hfaY : fa.Year = some ya) (hfaM : fa.Month = some ma) (hfaD : fa.Day = some da)
    (hfbY : fb.Year = some yb) (hfbM : fb.Month = some mb) (hfbD : fb.Day = some db)
    (hya : 1000 ≤ ya) (hya2 : ya ≤ 9999) (hma : 1 ≤ ma) (hma2 : ma ≤ 12)
    (hda : 1 ≤ da) (hda2 : da ≤ 31)
    (hyb : 1000 ≤ yb) (hyb2 : yb ≤ 9999) (hmb : 1 ≤ mb) (hmb2 : mb ≤ 12)
    (hdb : 1 ≤ db) (hdb2 : db ≤ 31) :
    FanzineIssueSpec.ltByKey a b = .ok (FanzineIssueSpec.ltFIS a (some b)) := by
  have hKa := formatDate_data fa ya ma da hfaY hfaM hfaD hya hya2
    (by omega) (by omega) (by omega) (by omega)
  have hKb := formatDate_data fb yb mb db hfbY hfbM hfbD hyb hyb2
    (by omega) (by omega) (by omega) (by omega)
  have hlt : FanzineIssueSpec.ltByKey a b =
      .ok (strLt fa.FormatDateForSorting fb.FormatDateForSorting ||
        ((fa.FormatDateForSorting == fb.FormatDateForSorting) &&
          strLt FanzineSerial.emptySerial.FormatSerialForSorting
            FanzineSerial.emptySerial.FormatSerialForSorting)) := by
    unfold FanzineIssueSpec.ltByKey FanzineIssueSpec.dateKey FanzineIssueSpec.serialKey
    rw [hFa, hFb, hSa, hSb]
  have hserial : strLt FanzineSerial.emptySerial.FormatSerialForSorting
      FanzineSerial.emptySerial.FormatSerialForSorting = false := by decide
  have hFIS : FanzineIssueSpec.ltFIS a (some b) = FanzineDate.ltDate fa fb := by
    show (match a.FD, b.FD with
          | some u, some v => FanzineDate.ltDate u v
          | _, _ =>
              match a.FS, b.FS with
              | some sa, some sb => FanzineSerial.ltSerial sa (some sb)
              | _, _ => false) = FanzineDate.ltDate fa fb
    rw [hFa, hFb]
  rw [hlt, hserial, Bool.and_false, Bool.or_false, hFIS]
  have hldt : FanzineDate.ltDate fa fb =
      (if ya ≠ yb then decide (ya < yb)
       else if ma ≠ mb then decide (ma < mb)
       else if da ≠ db then decide (da < db) else false) := by
    unfold FanzineDate.ltDate
    rw [hfaY, hfbY, hfaM, hfbM, hfaD, hfbD]
  rw [hldt]
  congr 1
  rw [strLt, hKa, hKb,
    keyLt ya.natAbs ma.natAbs da.natAbs yb.natAbs mb.natAbs db.natAbs
      (by omega) (by omega) (by omega) (by omega) (by omega) (by omega)]
  rw [Bool.eq_iff_iff]
  simp only [Bool.or_eq_true, Bool.and_eq_true, decide_eq_true_eq]
  split_ifs with h1 h2 h3 <;>
    simp only [decide_eq_true_eq, Bool.false_eq_true, iff_false, not_or, not_and] <;>
    omega

/-- Witness for C3: the amended agreement applied to the specs holding
April 30, 1967 and May 1, 1967 with empty serials. -/
theorem C3_sortKey_witness :
    FanzineIssueSpec.ltByKey specApr30 specMay1 =
      .ok (FanzineIssueSpec.ltFIS specApr30 (some specMay1)) :=
  C3_sortKey_amended specApr30 specMay1 dateApr30 dateMay1 1967 4 30 1967 5 1
    rfl rfl rfl rfl rfl rfl rfl rfl rfl rfl
    (by omega) (by omega) (by omega) (by omega) (by omega) (by omega)
    (by omega) (by omega) (by omega) (by omega) (by omega) (by omega)

end FISP
